import Mathlib

/-!
CppUMockGen: the mock generator front (`app/sources/MockGenerator.cpp`), `App`, and the
test helper `ClangCompileHelper::CheckCompilation`.

A shallow embedding of `GetFilenameFromPath` and `GenerateMock`, together with
the parts of libclang they call.  libclang, the console colorizer and the
`Function` / `Method` classes are external to the embedded file: the front-end
is a function handed to `GenerateMock`, a translation unit is the data libclang
would report for it (its diagnostics and its cursor tree), and the declaration
classes are a record of functions of the cursor and the configuration.

Streams are modelled by the text written to them so far; `std::endl` writes a
line feed.

`App.cpp` and `Parser.cpp` are not among the sources: the definitions of the
sections `App` and `Parser` are modelled from the specification, from `Parser.hpp`
and from what the tests check, and say so.
-/

namespace CppUMockGen

/-! ## libclang -/

/-- The severities of `enum CXDiagnosticSeverity`, in libclang's order. -/
inductive CXDiagnosticSeverity where
  | Ignored
  | Note
  | Warning
  | Error
  | Fatal
deriving DecidableEq, Repr

/-- A diagnostic of a translation unit: what `clang_getDiagnosticSeverity` returns
for it and the text `clang_formatDiagnostic` gives it with the default display
options. -/
structure CXDiagnostic where
  severity : CXDiagnosticSeverity
  formatted : String
deriving DecidableEq, Repr

/-- The `enum CXCursorKind` of libclang, by its integer values. -/
abbrev CXCursorKind := Nat

/-- The value of `CXCursor_FunctionDecl` in `clang-c/Index.h`. -/
def CXCursor_FunctionDecl : CXCursorKind := 8

/-- The value of `CXCursor_CXXMethod` in `clang-c/Index.h`. -/
def CXCursor_CXXMethod : CXCursorKind := 21

/-- A cursor of the AST: its kind, the value `clang_Location_isFromMainFile`
returns for its location, a name that tells cursors apart (its USR), and its
children in source order. -/
inductive CXCursor where
  | mk (kind : CXCursorKind) (isFromMainFile : Int) (usr : String) (children : List CXCursor)
deriving Repr

/-- The kind of a cursor, as `clang_getCursorKind`. -/
def clang_getCursorKind : CXCursor → CXCursorKind
  | .mk kind _ _ _ => kind

/-- The composition `clang_Location_isFromMainFile( clang_getCursorLocation( cursor ) )`. -/
def clang_Location_isFromMainFile : CXCursor → Int
  | .mk _ isFromMainFile _ _ => isFromMainFile

/-- The children of a cursor, in the order libclang visits them. -/
def CXCursor.children : CXCursor → List CXCursor
  | .mk _ _ _ children => children

/-- A parsed translation unit: its diagnostics, in the order of
`clang_getDiagnostic( tu, i )`, and its root cursor.  `clang_getNumDiagnostics`
returns an `unsigned`, so a translation unit holds fewer than `2^32` diagnostics. -/
structure CXTranslationUnit where
  diagnostics : List CXDiagnostic
  numDiagnostics_lt : diagnostics.length < 4294967296
  cursor : CXCursor

/-- The number of diagnostics of a translation unit, as `clang_getNumDiagnostics`. -/
def clang_getNumDiagnostics (tu : CXTranslationUnit) : Nat :=
  tu.diagnostics.length

/-- The root cursor of a translation unit, as `clang_getTranslationUnitCursor`. -/
def clang_getTranslationUnitCursor (tu : CXTranslationUnit) : CXCursor :=
  tu.cursor

/-- What a cursor visitor returns, `enum CXChildVisitResult`. -/
inductive CXChildVisitResult where
  | Break
  | Continue
  | Recurse
deriving DecidableEq, Repr

mutual
/-- The traversal `clang_visitChildren( parent, visitor, clientData )`: the visitor
is called on every child of `parent` in order; on `Recurse` the children of that
child are traversed before its next sibling, on `Break` the traversal stops.  The
result is whether the traversal was stopped, and the client data afterwards. -/
def clang_visitChildren {σ : Type} (visitor : CXCursor → CXCursor → σ → CXChildVisitResult × σ) :
    CXCursor → σ → Bool × σ
  | .mk kind isFromMainFile usr children, clientData =>
    visitChildrenList visitor (.mk kind isFromMainFile usr children) children clientData
/-- The traversal of `clang_visitChildren` over the remaining children of `parent`. -/
def visitChildrenList {σ : Type} (visitor : CXCursor → CXCursor → σ → CXChildVisitResult × σ)
    (parent : CXCursor) : List CXCursor → σ → Bool × σ
  | [], clientData => (false, clientData)
  | cursor :: rest, clientData =>
    match visitor cursor parent clientData with
    | (.Break, clientData1) => (true, clientData1)
    | (.Continue, clientData1) => visitChildrenList visitor parent rest clientData1
    | (.Recurse, clientData1) =>
      match clang_visitChildren visitor cursor clientData1 with
      | (true, clientData2) => (true, clientData2)
      | (false, clientData2) => visitChildrenList visitor parent rest clientData2
end

/-! ## Console and streams -/

/-- The colours of `ConsoleColorizer::Color` that `GenerateMock` uses. -/
inductive Color where
  | LIGHT_RED
  | YELLOW
  | RESET
deriving DecidableEq, Repr

/-- The observable state `GenerateMock` acts on: the text written to `output`, the
text written to `std::cerr`, and the calls made to `cerrColorizer.SetColor`,
oldest first. -/
structure Streams where
  output : String
  cerr : String
  colorCalls : List Color
deriving DecidableEq, Repr

/-- The call `cerrColorizer.SetColor( color )`. -/
def SetColor (color : Color) (st : Streams) : Streams :=
  { st with colorCalls := st.colorCalls ++ [color] }

/-- The statement `std::cerr << text`. -/
def writeCerr (text : String) (st : Streams) : Streams :=
  { st with cerr := st.cerr ++ text }

/-- The statement `output << text`. -/
def writeOutput (text : String) (st : Streams) : Streams :=
  { st with output := st.output ++ text }

/-- The text `std::endl` inserts. -/
def endl : String := "\n"

/-! ## The declaration classes -/

/-- The classes `Function` and `Method` (`Function.hpp`, `Method.hpp`), as far as
`GenerateMock` uses them: an object is built from a cursor and the configuration,
then asked `IsMockable()` and `GenerateMock()`. -/
structure DeclClasses (Config : Type) where
  functionIsMockable : CXCursor → Config → Bool
  functionGenerateMock : CXCursor → Config → String
  methodIsMockable : CXCursor → Config → Bool
  methodGenerateMock : CXCursor → Config → String

/-! ## `MockGenerator.cpp` -/

/-- The `struct ParseData` handed to the visitor: the configuration and the output
stream (the text written to it so far). -/
structure ParseData (Config : Type) where
  config : Config
  output : String

/-- The macro `PATH_SEPARATOR`: a backslash when `WIN32` is defined, a slash
otherwise. -/
def PATH_SEPARATOR (win32 : Bool) : Char :=
  if win32 then '\\' else '/'

/-- The position of the last occurrence of a character, as `std::string::rfind`;
`none` stands for `std::string::npos`. -/
def rfind (c : Char) : List Char → Option Nat
  | [] => none
  | x :: xs =>
    match rfind c xs with
    | some pos => some (pos + 1)
    | none => if x = c then some 0 else none

/-- The function `GetFilenameFromPath`: the text after the last path separator, or
the whole path when it holds none. -/
def GetFilenameFromPath (win32 : Bool) (filepath : String) : String :=
  match rfind (PATH_SEPARATOR win32) filepath.data with
  | none => filepath
  | some sepPos => String.mk (filepath.data.drop (sepPos + 1))

/-- What an element of the vector `clangOpts` points to: a string literal, the
characters of a string that `includePathOpts` holds, or storage that
`includePathOpts` has released. -/
inductive OptionPointer where
  | literal (text : String)
  | element (text : String)
  | released
deriving DecidableEq, Repr

/-- The two vectors `GenerateMock` fills for the front-end: the pointers of
`clangOpts`, the strings of `includePathOpts` and the capacity of that vector. -/
structure OptionVectors where
  clangOpts : List OptionPointer
  includePathOpts : List String
  capacity : Nat
deriving DecidableEq, Repr

/-- The longest text a `std::string` keeps inside the string object itself (15 bytes
in libstdc++ and in the Microsoft library); a longer text lives in a buffer of its
own that moves with the string. -/
def SSO_CAPACITY : Nat := 15

/-- The capacity a full `std::vector` takes when an element is pushed (libstdc++: one
for an empty vector, twice the capacity otherwise). -/
def vectorGrowth (capacity : Nat) : Nat :=
  if capacity = 0 then 1 else 2 * capacity

/-- What becomes of a pointer of `clangOpts` when `includePathOpts` moves its strings
to new storage: the characters of a short string lay in the storage given up, those
of a long string stay where they are, and a string literal is not touched. -/
def afterReallocation (ssoCapacity : Nat) : OptionPointer → OptionPointer
  | .element text => if text.utf8ByteSize ≤ ssoCapacity then .released else .element text
  | pointer => pointer

/-- One turn of the loop over the include paths: `"-I" + includePath` is pushed to
`includePathOpts`, which moves to new storage when it is full, and the `c_str()` of
the new last string is pushed to `clangOpts`. -/
def pushIncludePath (ssoCapacity : Nat) (growth : Nat → Nat) (vectors : OptionVectors)
    (includePath : String) : OptionVectors :=
  let option := "-I" ++ includePath
  let full := vectors.includePathOpts.length = vectors.capacity
  { clangOpts :=
      (if full then vectors.clangOpts.map (afterReallocation ssoCapacity)
        else vectors.clangOpts) ++ [.element option]
    includePathOpts := vectors.includePathOpts ++ [option]
    capacity := if full then growth vectors.capacity else vectors.capacity }

/-- The vectors as `GenerateMock` has them when it calls the front-end. -/
def buildOptionVectors (ssoCapacity : Nat) (growth : Nat → Nat) (interpretAsCpp : Bool)
    (includePaths : List String) : OptionVectors :=
  includePaths.foldl (pushIncludePath ssoCapacity growth)
    { clangOpts := if interpretAsCpp then [.literal "-xc++"] else []
      includePathOpts := []
      capacity := 0 }

/-- The text the front-end reads through a pointer of `clangOpts`; `releasedText` is
what released storage reads as. -/
def readOption (releasedText : String) : OptionPointer → String
  | .literal text => text
  | .element text => text
  | .released => releasedText

/-- The options the front-end reads through `clangOpts.data()`.  Reading released
storage is undefined; here it gives the empty text, which is what a short string
that has been moved away leaves behind. -/
def clangOpts (interpretAsCpp : Bool) (includePaths : List String) : List String :=
  (buildOptionVectors SSO_CAPACITY vectorGrowth interpretAsCpp includePaths).clangOpts.map
    (readOption "")

/-- One turn of the diagnostics loop of `GenerateMock`: the error counter
(`unsigned int`) and the streams, before and after diagnostic `diag`. -/
def reportDiagnostic (acc : Nat × Streams) (diag : CXDiagnostic) : Nat × Streams :=
  let labelled : Nat × Streams :=
    match diag.severity with
    | .Fatal | .Error =>
      ((acc.1 + 1) % 4294967296, writeCerr "PARSE ERROR: " (SetColor .LIGHT_RED acc.2))
    | .Warning => (acc.1, writeCerr "PARSE WARNING: " (SetColor .YELLOW acc.2))
    | _ => acc
  (labelled.1, writeCerr endl (writeCerr diag.formatted (SetColor .RESET labelled.2)))

/-- The diagnostics loop of `GenerateMock`, over diagnostics `0 .. numDiags - 1`. -/
def reportDiagnostics (diags : List CXDiagnostic) (acc : Nat × Streams) : Nat × Streams :=
  diags.foldl reportDiagnostic acc

/-- The heading `GenerateMock` writes to `output` before it walks the AST. -/
def writeHeading (win32 : Bool) (inputFilename : String) (interpretAsCpp : Bool)
    (st : Streams) : Streams :=
  let st := writeOutput endl (writeOutput
    "/* This file has been auto-generated by CppUTestMock. DO NOT EDIT IT!!! */" st)
  let st := writeOutput endl st
  let st := if !interpretAsCpp then writeOutput endl (writeOutput "extern \"C\" \x7b" st) else st
  let st := writeOutput endl (writeOutput "\"" (writeOutput
    (GetFilenameFromPath win32 inputFilename) (writeOutput "#include \"" st)))
  let st := if !interpretAsCpp then writeOutput endl (writeOutput "\x7d" st) else st
  let st := writeOutput endl st
  let st := writeOutput endl (writeOutput "#include <CppUTestExt/MockSupport.h>" st)
  writeOutput endl st

/-- The visitor lambda that `GenerateMock` passes to `clang_visitChildren`. -/
def visitor {Config : Type} (cls : DeclClasses Config) (cursor _parent : CXCursor)
    (parseData : ParseData Config) : CXChildVisitResult × ParseData Config :=
  if clang_Location_isFromMainFile cursor ≠ 0 then
    let cursorKind := clang_getCursorKind cursor
    if cursorKind = CXCursor_FunctionDecl then
      if cls.functionIsMockable cursor parseData.config then
        (.Continue, { parseData with
          output := parseData.output ++ cls.functionGenerateMock cursor parseData.config ++ endl })
      else
        (.Continue, parseData)
    else if cursorKind = CXCursor_CXXMethod then
      if cls.methodIsMockable cursor parseData.config then
        (.Continue, { parseData with
          output := parseData.output ++ cls.methodGenerateMock cursor parseData.config ++ endl })
      else
        (.Continue, parseData)
    else
      (.Recurse, parseData)
  else
    (.Continue, parseData)

/-- How a call of `GenerateMock` ends: the process is left through `exit( status )`,
or the call returns a value; either way with the streams as they then are. -/
inductive Outcome where
  | exited (status : Int) (st : Streams)
  | returned (value : Bool) (st : Streams)
deriving DecidableEq, Repr

/-- The value a call returned, `none` when it left the process instead. -/
def Outcome.value : Outcome → Option Bool
  | .exited _ _ => none
  | .returned value _ => some value

/-- The streams at the end of a call. -/
def Outcome.streams : Outcome → Streams
  | .exited _ st => st
  | .returned _ st => st

/-- The function `GenerateMock` of `MockGenerator.cpp`.  `clang_parseTranslationUnit`
is the front-end, called with the input file name and the options `clangOpts`; it
gives `none` for a null translation unit. -/
def GenerateMock {Config : Type} (win32 : Bool)
    (clang_parseTranslationUnit : String → List String → Option CXTranslationUnit)
    (cls : DeclClasses Config) (inputFilename : String) (config : Config)
    (interpretAsCpp : Bool) (includePaths : List String) (st : Streams) : Outcome :=
  match clang_parseTranslationUnit inputFilename (clangOpts interpretAsCpp includePaths) with
  | none =>
    .exited (-1) (writeCerr endl (writeCerr "Unable to parse translation unit. Quitting." st))
  | some tu =>
    let numDiags := clang_getNumDiagnostics tu
    let reported : Nat × Streams :=
      if numDiags > 0 then reportDiagnostics tu.diagnostics (0, st) else (0, st)
    let numErrors := reported.1
    let st := reported.2
    let st :=
      if numErrors = 0 then
        let st := writeHeading win32 inputFilename interpretAsCpp st
        let parseData : ParseData Config := { config := config, output := st.output }
        let tuCursor := clang_getTranslationUnitCursor tu
        let visited := clang_visitChildren (visitor cls) tuCursor parseData
        { st with output := visited.2.output }
      else st
    .returned (numErrors == 0) st


/-! ## Notions used to state the properties -/

/-- Whether a severity counts as an error for `GenerateMock`: `Fatal` or `Error`. -/
def isErrorSeverity (severity : CXDiagnosticSeverity) : Bool :=
  severity = .Fatal || severity = .Error

/-- The concatenation of a list of texts, in order. -/
def concatText : List String → String
  | [] => ""
  | text :: rest => text ++ concatText rest

/-- The label that precedes the text of a diagnostic of the given severity. -/
def severityLabel : CXDiagnosticSeverity → String
  | .Fatal => "PARSE ERROR: "
  | .Error => "PARSE ERROR: "
  | .Warning => "PARSE WARNING: "
  | .Note => ""
  | .Ignored => ""

/-- The line reported for a diagnostic: its label, its formatted text, a line feed. -/
def diagnosticLine (diag : CXDiagnostic) : String :=
  severityLabel diag.severity ++ diag.formatted ++ "\n"

/-- The text `writeHeading` adds to the output. -/
def headingText (win32 : Bool) (inputFilename : String) (interpretAsCpp : Bool) : String :=
  (writeHeading win32 inputFilename interpretAsCpp ⟨"", "", []⟩).output

/-- Whether a cursor is a function or a method declaration. -/
def isDeclCursor (cursor : CXCursor) : Bool :=
  clang_getCursorKind cursor = CXCursor_FunctionDecl ||
    clang_getCursorKind cursor = CXCursor_CXXMethod

mutual
/-- All cursors below a cursor, in pre-order. -/
def descendants : CXCursor → List CXCursor
  | .mk _ _ _ children => preorderList children
/-- The cursors of a list of sibling subtrees, in pre-order. -/
def preorderList : List CXCursor → List CXCursor
  | [] => []
  | cursor :: rest => cursor :: (descendants cursor ++ preorderList rest)
end

mutual
/-- The declarations the walk builds a `Function` or `Method` object for, below a
cursor whose children are traversed. -/
def visitedDecls : CXCursor → List CXCursor
  | .mk _ _ _ children => visitedDeclsList children
/-- The declarations the walk builds an object for, in a list of sibling subtrees:
a main-file function or method declaration itself, the visited declarations
below any other main-file cursor, nothing of a cursor outside the main file. -/
def visitedDeclsList : List CXCursor → List CXCursor
  | [] => []
  | cursor :: rest =>
    (if clang_Location_isFromMainFile cursor ≠ 0 then
      if isDeclCursor cursor then [cursor] else visitedDecls cursor
    else []) ++ visitedDeclsList rest
end

/-- What `IsMockable()` answers for the object built from a declaration cursor. -/
def declIsMockable {Config : Type} (cls : DeclClasses Config) (config : Config)
    (cursor : CXCursor) : Bool :=
  if clang_getCursorKind cursor = CXCursor_FunctionDecl then cls.functionIsMockable cursor config
  else cls.methodIsMockable cursor config

/-- What `GenerateMock()` returns for the object built from a declaration cursor. -/
def declMock {Config : Type} (cls : DeclClasses Config) (config : Config)
    (cursor : CXCursor) : String :=
  if clang_getCursorKind cursor = CXCursor_FunctionDecl then cls.functionGenerateMock cursor config
  else cls.methodGenerateMock cursor config

/-- The text the walk writes for a list of visited declarations: the mock of each
mockable one followed by a line feed, nothing for the others. -/
def mocksText {Config : Type} (cls : DeclClasses Config) (config : Config)
    (decls : List CXCursor) : String :=
  concatText (decls.map fun cursor =>
    if declIsMockable cls config cursor then declMock cls config cursor ++ "\n" else "")

/-- The number of diagnostics of severity `Fatal` or `Error` in a list. -/
def numErrorDiagnostics (diags : List CXDiagnostic) : Nat :=
  diags.countP fun diag => isErrorSeverity diag.severity

/-- The mockable ones among the declarations the walk visits below a cursor, in the
order of the walk. -/
def mockedDecls {Config : Type} (cls : DeclClasses Config) (config : Config)
    (cursor : CXCursor) : List CXCursor :=
  (visitedDecls cursor).filter (declIsMockable cls config)

/-! ## Example inputs -/

/-- Declaration classes for the examples: a declaration is mockable unless its name
is `bad`, and its mock is its name after `F:` or `M:`. -/
def exampleClasses : DeclClasses Nat where
  functionIsMockable := fun cursor _ => match cursor with
    | .mk _ _ usr _ => usr != "bad"
  functionGenerateMock := fun cursor _ => match cursor with
    | .mk _ _ usr _ => "F:" ++ usr
  methodIsMockable := fun cursor _ => match cursor with
    | .mk _ _ usr _ => usr != "bad"
  methodGenerateMock := fun cursor _ => match cursor with
    | .mk _ _ usr _ => "M:" ++ usr

/-- An AST with a function of an included file, two functions and a class with two
methods in the main file, and a main-file function below a cursor of an included
file. -/
def exampleCursor : CXCursor :=
  .mk 300 1 "tu"
    [ .mk 8 0 "inc" [],
      .mk 8 1 "f1" [.mk 10 1 "p" []],
      .mk 8 1 "bad" [],
      .mk 4 1 "cls" [.mk 21 1 "m1" [], .mk 21 1 "bad" []],
      .mk 22 0 "ns" [.mk 8 1 "hidden" []] ]

/-- A translation unit with a warning and a note. -/
def exampleWarningUnit : CXTranslationUnit :=
  ⟨[⟨.Warning, "foo.h:1:2: warning: test"⟩, ⟨.Note, "foo.h:1:1: note: here"⟩],
    by decide, exampleCursor⟩

/-- A translation unit with a warning and an error. -/
def exampleErrorUnit : CXTranslationUnit :=
  ⟨[⟨.Warning, "foo.h:1:2: warning: test"⟩, ⟨.Error, "foo.h:2:1: error: unknown type"⟩],
    by decide, exampleCursor⟩

/-- A translation unit without diagnostics. -/
def exampleCleanUnit : CXTranslationUnit :=
  ⟨[], by decide, exampleCursor⟩

/-- A front-end that knows one file, `foo.h`. -/
def exampleFrontEnd (tu : CXTranslationUnit) (filename : String) (_opts : List String) :
    Option CXTranslationUnit :=
  if filename = "foo.h" then some tu else none

/-- The translation unit of the header `void function1(int a);`. -/
def function1Unit : CXTranslationUnit :=
  ⟨[], by decide, .mk 300 1 "tu" [.mk 8 1 "c:@F@function1" [.mk 10 1 "a" []]]⟩

/-- Declaration classes for which no declaration is mockable. -/
def nonMockableClasses : DeclClasses Nat where
  functionIsMockable := fun _ _ => false
  functionGenerateMock := fun _ _ => "###MOCK###"
  methodIsMockable := fun _ _ => false
  methodGenerateMock := fun _ _ => "###MOCK###"

/-- The visitor is called on the children of the cursors `RecursedInto root` holds
for: the root itself, and every main-file child of such a cursor that is neither a
function nor a method declaration. -/
inductive RecursedInto (root : CXCursor) : CXCursor → Prop where
  | root : RecursedInto root root
  | child (parent cursor : CXCursor) :
      RecursedInto root parent → cursor ∈ parent.children →
      clang_Location_isFromMainFile cursor ≠ 0 → isDeclCursor cursor = false →
      RecursedInto root cursor

/-- Declaration classes that agree with `exampleClasses` for the configuration `7` and
mock nothing for any other configuration. -/
def configBoundClasses : DeclClasses Nat where
  functionIsMockable := fun cursor config =>
    config == 7 && exampleClasses.functionIsMockable cursor config
  functionGenerateMock := fun cursor config =>
    if config = 7 then exampleClasses.functionGenerateMock cursor config else "other"
  methodIsMockable := fun cursor config =>
    config == 7 && exampleClasses.methodIsMockable cursor config
  methodGenerateMock := fun cursor config =>
    if config = 7 then exampleClasses.methodGenerateMock cursor config else "other"

/-! ## `App` -/

/-- Modelled from the spec: the command-line options `App::Execute` works from, as
the tests of `App_test.cpp` pass them (`App.cpp` and its option parser are not among
the sources): the input file of `-i`, the mock output of `-m` (`none` without the
option, the empty text when the option has no path, `@` for the console), the flags
`-x` and `-u`, and the values of `-I`, `-D`, `-p` and `-t` in the order given. -/
structure AppOptions where
  input : Option String
  mockOutput : Option String
  interpretAsCpp : Bool
  useUnderlyingTypedefType : Bool
  includePaths : List String
  defines : List String
  paramOverrideOptions : List String
  typeOverrideOptions : List String
deriving DecidableEq, Repr

/-- Modelled from the spec: what `App::Execute` relies on around it (`Parser` and the
file system are not part of `App`): the result of `Parser::Parse` and the text it
writes to the error stream, the text `Parser::GenerateMock` writes for given
generation options, and whether a file can be opened for writing. -/
structure AppCollaborators where
  parse : AppOptions → Bool × String
  generateMock : String → String
  canOpen : String → Bool

/-- Modelled from the spec: what a run of `App::Execute` leaves behind (`App.cpp` is
not among the sources): the text of the output and error streams, the number of
calls to `ConsoleColorizer::SetColor`, the files written with their contents, and the
generation options of each request to `Parser::GenerateMock`. -/
structure AppState where
  output : String
  error : String
  colorCalls : Nat
  files : List (String × String)
  generateMockCalls : List String
deriving DecidableEq, Repr

/-- Modelled from the spec: how `App` quotes an option value in the generation
options (`App.cpp` is not among the sources): `a value wrapped in double quotes
exactly when it contains a space`. -/
def QuotifyOption (option : String) : String :=
  if ' ' ∈ option.data then "\"" ++ option ++ "\"" else option

/-- Modelled from the spec: the generation-options string `App` passes to the
generator (`App.cpp` is not among the sources): `re-serializes the command-line
options that affect generation, each as '<flag> ' or '<flag> <value> '`; by the tests
these are `-x`, `-u`, `-p` and `-t`. -/
def generationOptions (options : AppOptions) : String :=
  (if options.interpretAsCpp then "-x " else "")
    ++ (if options.useUnderlyingTypedefType then "-u " else "")
    ++ concatText (options.paramOverrideOptions.map fun value =>
        "-p " ++ QuotifyOption value ++ " ")
    ++ concatText (options.typeOverrideOptions.map fun value =>
        "-t " ++ QuotifyOption value ++ " ")

/-- Modelled from the spec: a file name `with any extension removed` (`App.cpp` is not
among the sources): the text before the last dot, or the whole name when it has no
dot. -/
def removeExtension (name : String) : String :=
  match rfind '.' name.data with
  | none => name
  | some dotPos => String.mk (name.data.take dotPos)

/-- Modelled from the spec: the path of the mock output file (`App.cpp` is not among
the sources): for a mock option without a path or naming a directory (by the tests, a
path that ends with the path separator) the `base name with any extension removed
followed by '_mock.cpp'`, in the current or the given directory; a path naming a
file `is used unchanged`. -/
def mockOutputFilepath (win32 : Bool) (inputFilename mockOption : String) : String :=
  let deduced := removeExtension (GetFilenameFromPath win32 inputFilename) ++ "_mock.cpp"
  if mockOption = "" then deduced
  else if mockOption.data.getLast? = some (PATH_SEPARATOR win32) then mockOption ++ deduced
  else mockOption

/-- Modelled from the spec: how `App` reports an error (`App.cpp` is not among the
sources): by the tests, two calls to `SetColor` and a text that holds `ERROR:` and
the message. -/
def printError (message : String) (state : AppState) : AppState :=
  { state with
    colorCalls := state.colorCalls + 2
    error := state.error ++ "ERROR: " ++ message ++ "\n" }

/-- Modelled from the spec: how `App` reports success (`App.cpp` is not among the
sources): by the tests, two calls to `SetColor` and a text that holds `SUCCESS:` and
the message. -/
def printSuccess (message : String) (state : AppState) : AppState :=
  { state with
    colorCalls := state.colorCalls + 2
    error := state.error ++ "SUCCESS: " ++ message ++ "\n" }

/-- Modelled from the spec: the function `App::Execute` on parsed options (`App.cpp`
is not among the sources), as its tests show it: without an input file or without a
mock option it reports a usage error and returns 1; a mock output file that cannot
be opened gives an error and 1; when `Parser::Parse` fails it reports that the output
could not be generated, requests no generation and returns 2; otherwise it requests
the mock with the generation options, writes it to the console or to the file, and
returns 0. -/
def AppExecute (win32 : Bool) (env : AppCollaborators) (options : AppOptions)
    (state : AppState) : Int × AppState :=
  match options.input with
  | none => (1, printError "No input file specified" state)
  | some inputFilename =>
    match options.mockOutput with
    | none =>
      (1, printError ("At least the mock generation option (-m) or the expectation "
        ++ "generation option (-e) must be specified") state)
    | some mockOption =>
      let toConsole := mockOption = "@"
      let filepath := mockOutputFilepath win32 inputFilename mockOption
      if !toConsole && !env.canOpen filepath then
        (1, printError ("Mock output file '" ++ filepath ++ "' could not be opened") state)
      else
        let parsed := env.parse options
        let state := { state with error := state.error ++ parsed.2 }
        if parsed.1 then
          let genOpts := generationOptions options
          let text := env.generateMock genOpts
          let state := { state with generateMockCalls := state.generateMockCalls ++ [genOpts] }
          if toConsole then
            (0, { state with output := state.output ++ text })
          else
            (0, printSuccess ("Mock generated into '" ++ filepath ++ "'")
              { state with files := state.files ++ [(filepath, text)] })
        else
          (2, printError ("Output could not be generated due to errors parsing the input "
            ++ "file '" ++ inputFilename ++ "'") state)

/-- The options of the test `MockOutput_typeOverrideOptions`. -/
def typeOverrideTestOptions : AppOptions :=
  { input := some "foo.h", mockOutput := some "@", interpretAsCpp := false,
    useUnderlyingTypedefType := false, includePaths := [], defines := [],
    paramOverrideOptions := [], typeOverrideOptions := ["#foo=String", "@const bar=Int/&$"] }

/-- Collaborators for the examples: parsing fails for the input `bad.h`, the mock text
repeats the generation options, and files open except below `/missing/`. -/
def exampleCollaborators : AppCollaborators where
  parse := fun options => (options.input != some "bad.h", "")
  generateMock := fun genOpts => "#####" ++ genOpts ++ "#####"
  canOpen := fun filepath => !("/missing/".data.isPrefixOf filepath.data)

/-- The calls to `SetColor` one turn of the diagnostics loop makes for a diagnostic
of the given severity, in order. -/
def colorCallsOf : CXDiagnosticSeverity → List Color
  | .Fatal => [.LIGHT_RED, .RESET]
  | .Error => [.LIGHT_RED, .RESET]
  | .Warning => [.YELLOW, .RESET]
  | .Note => [.RESET]
  | .Ignored => [.RESET]

/-- The calls to `SetColor` the diagnostics loop makes for a list of diagnostics. -/
def diagnosticsColorCalls : List CXDiagnostic → List Color
  | [] => []
  | diag :: rest => colorCallsOf diag.severity ++ diagnosticsColorCalls rest

/-- Whether a severity gets a label and a colour: `Fatal`, `Error` or `Warning`. -/
def isLabelledSeverity (severity : CXDiagnosticSeverity) : Bool :=
  severity = .Fatal || severity = .Error || severity = .Warning

/-- A visitor that also records, in order, the cursors it is called on. -/
def tracedVisitor {σ : Type} (visitor : CXCursor → CXCursor → σ → CXChildVisitResult × σ)
    (cursor parent : CXCursor) (data : σ × List CXCursor) :
    CXChildVisitResult × (σ × List CXCursor) :=
  ((visitor cursor parent data.1).1, ((visitor cursor parent data.1).2, data.2 ++ [cursor]))

mutual
/-- The cursors the visitor of `GenerateMock` is called on below a cursor whose
children are traversed, in order. -/
def visitorCalls : CXCursor → List CXCursor
  | .mk _ _ _ children => visitorCallsList children
/-- The cursors the visitor of `GenerateMock` is called on in a list of sibling
subtrees: each sibling, and after it what is called below it when it is a main-file
cursor that is neither a function nor a method declaration. -/
def visitorCallsList : List CXCursor → List CXCursor
  | [] => []
  | cursor :: rest =>
    cursor ::
      ((if clang_Location_isFromMainFile cursor ≠ 0 ∧ isDeclCursor cursor = false then
          visitorCalls cursor
        else []) ++ visitorCallsList rest)
end

/-! ## `ClangCompileHelper.cpp` -/

/-- An unsaved file handed to the front-end, `struct CXUnsavedFile`: its name, its
contents and the length given for them, in bytes. -/
structure CXUnsavedFile where
  Filename : String
  Contents : String
  Length : Nat
deriving DecidableEq, Repr

/-- How a call of `ClangCompileHelper::CheckCompilation` ends: it throws a
`std::runtime_error` with a message, or it returns a value; either way with the text
of `std::cerr` as it then is. -/
inductive CheckOutcome where
  | threw (what : String) (cerr : String)
  | returned (value : Bool) (cerr : String)
deriving DecidableEq, Repr

/-- The value a call returned, `none` when it threw instead. -/
def CheckOutcome.value : CheckOutcome → Option Bool
  | .threw _ _ => none
  | .returned value _ => some value

/-- The text `compiledCode` that `CheckCompilation` hands to the front-end; the
`extern "C"` wrapping is there when `INTERPRET_C` is defined. -/
def compiledCode (INTERPRET_C : Bool) (testedHeader testedSource : String) : String :=
  let code := "#include <CppUTest/TestHarness.h>\n" ++ "#include <CppUTestExt/MockSupport.h>\n"
  let code := if INTERPRET_C then code ++ "extern \"C\" \x7b" else code
  let code := code ++ (testedHeader ++ "\n")
  let code := if INTERPRET_C then code ++ "\x7d" else code
  code ++ testedSource

/-- The function `ClangCompileHelper::CheckCompilation`.  `DISABLE_COMPILATION_CHECK`
and `INTERPRET_C` say whether the macro is defined, `CPPUTEST_INCLUDE_DIR` is the text
of that macro, `ulongBits` is the width of `unsigned long` (the length of the code in
bytes is cast to it), and `clang_parseTranslationUnit` is the front-end, called with the file
name, the options and the unsaved files; it gives `none` for a null translation
unit. -/
def CheckCompilation (DISABLE_COMPILATION_CHECK INTERPRET_C : Bool)
    (CPPUTEST_INCLUDE_DIR : String) (ulongBits : Nat)
    (clang_parseTranslationUnit :
      String → List String → List CXUnsavedFile → Option CXTranslationUnit)
    (testedHeader testedSource : String) (cerr : String) : CheckOutcome :=
  if DISABLE_COMPILATION_CHECK then .returned true cerr
  else
    let clangOptions := ["-xc++", "-I" ++ CPPUTEST_INCLUDE_DIR]
    let code := compiledCode INTERPRET_C testedHeader testedSource
    let unsavedFiles : List CXUnsavedFile :=
      [{ Filename := "test_mock.cpp", Contents := code, Length := code.utf8ByteSize % 2 ^ ulongBits }]
    match clang_parseTranslationUnit "test_mock.cpp" clangOptions unsavedFiles with
    | none => .threw "Error creating translation unit" cerr
    | some tu =>
      let numDiags := clang_getNumDiagnostics tu
      let cerr :=
        if numDiags > 0 then
          tu.diagnostics.foldl (fun text diag => text ++ diag.formatted ++ endl)
            (cerr ++ endl
              ++ "---------------- Error compiling --------------" ++ endl
              ++ code ++ endl
              ++ "-----------------------------------------------" ++ endl)
        else cerr
      .returned (numDiags == 0) cerr

/-- A header with two overloads, which compiles as C++ and not inside `extern "C"`. -/
def overloadsHeader : String := "void f(int); void f(double);"

/-- A front-end for the examples: the overloads header compiles without diagnostics
as it stands, and any other code gets a warning and an error. -/
def overloadsFrontEnd (_filename : String) (_opts : List String)
    (unsavedFiles : List CXUnsavedFile) : Option CXTranslationUnit :=
  match unsavedFiles with
  | [file] =>
    if file.Contents
        = "#include <CppUTest/TestHarness.h>\n#include <CppUTestExt/MockSupport.h>\n"
          ++ overloadsHeader ++ "\n" ++ "" then
      some exampleCleanUnit
    else some exampleErrorUnit
  | _ => none

/-- A translation unit with a single warning. -/
def singleWarningUnit : CXTranslationUnit :=
  ⟨[⟨.Warning, "test_mock.cpp:3:2: warning: test"⟩], by decide, exampleCursor⟩

/-- Modelled from the spec: the state of a `Parser` object (`Parser.cpp` is not among
the sources; the members are those `Parser.hpp` declares): the functions kept by
`Parse`, each by the text its `GenerateMock()` returns, the path of the input file
and whether it was read as C++. -/
structure Parser where
  m_functions : List String
  m_inputFilepath : String
  m_interpretAsCpp : Bool
deriving DecidableEq, Repr

/-- Modelled from the spec: a `Parser` object on which `Parse` has not been called
(`Parser.cpp` is not among the sources): it keeps no function. -/
def Parser.unparsed : Parser :=
  { m_functions := [], m_inputFilepath := "", m_interpretAsCpp := false }

/-- Modelled from the spec: the method `Parser::GenerateFileHeading( genOpts, output )`
that `Parser.hpp` declares (`Parser.cpp` is not among the sources): by the test
`WithRegenOpts` the text written `contains 'Generation options: ' immediately
followed by genOpts`; it stands in the banner comment. -/
def Parser.GenerateFileHeading (genOpts : String) (output : String) : String :=
  output ++ "/*\n * This file has been auto-generated by CppUMockGen.\n *\n"
    ++ " * Generation options: " ++ genOpts ++ "\n */\n\n"

/-- Modelled from the spec: the method `Parser::GenerateMock( genOpts, output )` that
`Parser.hpp` declares (`Parser.cpp` is not among the sources): `Generates mocked
functions for the C/C++ header parsed previously`; the heading with the generation
options, the include of the original header (inside `extern "C"` for a header read
as C), the include of the mocking framework, and the mock of each function kept, in
order. -/
def Parser.GenerateMock (win32 : Bool) (parser : Parser) (genOpts : String)
    (output : String) : String :=
  let output := Parser.GenerateFileHeading genOpts output
  let output := if !parser.m_interpretAsCpp then output ++ "extern \"C\" \x7b" ++ endl else output
  let output :=
    output ++ "#include \"" ++ GetFilenameFromPath win32 parser.m_inputFilepath ++ "\"" ++ endl
  let output := if !parser.m_interpretAsCpp then output ++ "\x7d" ++ endl else output
  let output := output ++ endl ++ "#include <CppUTestExt/MockSupport.h>" ++ endl ++ endl
  parser.m_functions.foldl (fun text mock => text ++ mock ++ endl) output

/-! ## Lemmas -/

theorem concatText_append (xs ys : List String) :
    concatText (xs ++ ys) = concatText xs ++ concatText ys := by
  induction xs with
  | nil => simp [concatText]
  | cons x xs ih => simp [concatText, ih, String.append_assoc]

theorem reportDiagnostic_output (acc : Nat × Streams) (diag : CXDiagnostic) :
    (reportDiagnostic acc diag).2.output = acc.2.output := by
  unfold reportDiagnostic
  cases diag.severity <;> rfl

theorem reportDiagnostics_output (diags : List CXDiagnostic) (acc : Nat × Streams) :
    (reportDiagnostics diags acc).2.output = acc.2.output := by
  induction diags generalizing acc with
  | nil => rfl
  | cons d ds ih =>
    show (reportDiagnostics ds (reportDiagnostic acc d)).2.output = _
    rw [ih, reportDiagnostic_output]

theorem reportDiagnostic_cerr (acc : Nat × Streams) (diag : CXDiagnostic) :
    (reportDiagnostic acc diag).2.cerr = acc.2.cerr ++ diagnosticLine diag := by
  unfold reportDiagnostic diagnosticLine
  cases diag.severity <;>
    simp [severityLabel, writeCerr, SetColor, endl, String.append_assoc]

theorem reportDiagnostics_cerr (diags : List CXDiagnostic) (acc : Nat × Streams) :
    (reportDiagnostics diags acc).2.cerr
      = acc.2.cerr ++ concatText (diags.map diagnosticLine) := by
  induction diags generalizing acc with
  | nil => simp [reportDiagnostics, concatText]
  | cons d ds ih =>
    show (reportDiagnostics ds (reportDiagnostic acc d)).2.cerr = _
    rw [ih, reportDiagnostic_cerr]
    simp [concatText, String.append_assoc]

theorem reportDiagnostic_fst (acc : Nat × Streams) (diag : CXDiagnostic) :
    (reportDiagnostic acc diag).1
      = if isErrorSeverity diag.severity then (acc.1 + 1) % 4294967296 else acc.1 := by
  unfold reportDiagnostic
  cases diag.severity <;> simp [isErrorSeverity]

theorem reportDiagnostics_fst (diags : List CXDiagnostic) (acc : Nat × Streams)
    (hacc : acc.1 + diags.length < 4294967296) :
    (reportDiagnostics diags acc).1
      = acc.1 + diags.countP (fun d => isErrorSeverity d.severity) := by
  induction diags generalizing acc with
  | nil => simp [reportDiagnostics]
  | cons d ds ih =>
    show (reportDiagnostics ds (reportDiagnostic acc d)).1 = _
    have h1 : (reportDiagnostic acc d).1
        = if isErrorSeverity d.severity then acc.1 + 1 else acc.1 := by
      rw [reportDiagnostic_fst]
      split
      · apply Nat.mod_eq_of_lt
        simp only [List.length_cons] at hacc
        omega
      · rfl
    have h2 : (reportDiagnostic acc d).1 + ds.length < 4294967296 := by
      rw [h1]
      simp only [List.length_cons] at hacc
      split <;> omega
    rw [ih _ h2, h1, List.countP_cons]
    split <;> simp_all
    omega


theorem writeHeading_output (win32 : Bool) (inputFilename : String) (interpretAsCpp : Bool)
    (st : Streams) :
    (writeHeading win32 inputFilename interpretAsCpp st).output
      = st.output ++ headingText win32 inputFilename interpretAsCpp := by
  cases interpretAsCpp <;>
    simp [writeHeading, headingText, writeOutput, String.append_assoc]

theorem writeHeading_cerr (win32 : Bool) (inputFilename : String) (interpretAsCpp : Bool)
    (st : Streams) :
    (writeHeading win32 inputFilename interpretAsCpp st).cerr = st.cerr := by
  cases interpretAsCpp <;> rfl

theorem mocksText_append {Config : Type} (cls : DeclClasses Config) (config : Config)
    (xs ys : List CXCursor) :
    mocksText cls config (xs ++ ys) = mocksText cls config xs ++ mocksText cls config ys := by
  simp [mocksText, concatText_append]

theorem visitor_of_not_main {Config : Type} (cls : DeclClasses Config) (cursor parent : CXCursor)
    (parseData : ParseData Config) (h : clang_Location_isFromMainFile cursor = 0) :
    visitor cls cursor parent parseData = (.Continue, parseData) := by
  simp [visitor, h]

theorem visitor_of_decl {Config : Type} (cls : DeclClasses Config) (cursor parent : CXCursor)
    (parseData : ParseData Config) (h : clang_Location_isFromMainFile cursor ≠ 0)
    (hk : isDeclCursor cursor = true) :
    visitor cls cursor parent parseData
      = (.Continue, { parseData with
          output := parseData.output ++ mocksText cls parseData.config [cursor] }) := by
  unfold isDeclCursor at hk
  by_cases hf : clang_getCursorKind cursor = CXCursor_FunctionDecl
  · by_cases hm : cls.functionIsMockable cursor parseData.config = true
    · simp [visitor, h, hf, hm, mocksText, concatText, declIsMockable, declMock, endl,
        String.append_assoc]
    · simp [visitor, h, hf, hm, mocksText, concatText, declIsMockable]
  · have hk2 : clang_getCursorKind cursor = CXCursor_CXXMethod := by simpa [hf] using hk
    have hne : ¬ CXCursor_CXXMethod = CXCursor_FunctionDecl := by decide
    by_cases hm : cls.methodIsMockable cursor parseData.config = true
    · simp [visitor, h, hk2, hne, hm, mocksText, concatText, declIsMockable, declMock, endl,
        String.append_assoc]
    · simp [visitor, h, hk2, hne, hm, mocksText, concatText, declIsMockable]

theorem visitor_of_other {Config : Type} (cls : DeclClasses Config) (cursor parent : CXCursor)
    (parseData : ParseData Config) (h : clang_Location_isFromMainFile cursor ≠ 0)
    (hk : isDeclCursor cursor = false) :
    visitor cls cursor parent parseData = (.Recurse, parseData) := by
  unfold isDeclCursor at hk
  simp only [Bool.or_eq_false_iff, decide_eq_false_iff_not] at hk
  simp [visitor, h, hk.1, hk.2]

mutual
theorem clang_visitChildren_visitor {Config : Type} (cls : DeclClasses Config) :
    ∀ (cursor : CXCursor) (parseData : ParseData Config),
      clang_visitChildren (visitor cls) cursor parseData
        = (false, { parseData with
            output := parseData.output ++ mocksText cls parseData.config (visitedDecls cursor) })
  | .mk kind isFromMainFile usr children, parseData => by
    rw [clang_visitChildren, visitedDecls]
    exact visitChildrenList_visitor cls (.mk kind isFromMainFile usr children) children parseData
theorem visitChildrenList_visitor {Config : Type} (cls : DeclClasses Config) (parent : CXCursor) :
    ∀ (cursors : List CXCursor) (parseData : ParseData Config),
      visitChildrenList (visitor cls) parent cursors parseData
        = (false, { parseData with
            output := parseData.output
              ++ mocksText cls parseData.config (visitedDeclsList cursors) })
  | [], parseData => by
    simp [visitChildrenList, visitedDeclsList, mocksText, concatText]
  | cursor :: rest, parseData => by
    rw [visitChildrenList, visitedDeclsList, mocksText_append]
    by_cases h : clang_Location_isFromMainFile cursor = 0
    · rw [visitor_of_not_main cls cursor parent parseData h]
      simp only [h, ne_eq, not_true_eq_false, if_false]
      rw [visitChildrenList_visitor cls parent rest parseData]
      simp [mocksText, concatText]
    · cases hk : isDeclCursor cursor
      · rw [visitor_of_other cls cursor parent parseData h hk]
        simp only [ne_eq, h, not_false_eq_true, if_true, hk, Bool.false_eq_true, if_false]
        rw [clang_visitChildren_visitor cls cursor parseData]
        simp only
        rw [visitChildrenList_visitor cls parent rest]
        simp [String.append_assoc]
      · rw [visitor_of_decl cls cursor parent parseData h hk]
        simp only [ne_eq, h, not_false_eq_true, if_true, hk]
        rw [visitChildrenList_visitor cls parent rest]
        simp [String.append_assoc]
end

theorem reportDiagnostics_guard (tu : CXTranslationUnit) (st : Streams) :
    (if clang_getNumDiagnostics tu > 0 then reportDiagnostics tu.diagnostics (0, st) else (0, st))
      = reportDiagnostics tu.diagnostics (0, st) := by
  unfold clang_getNumDiagnostics
  cases hd : tu.diagnostics with
  | nil => simp [reportDiagnostics]
  | cons d ds => simp

theorem numErrors_eq (tu : CXTranslationUnit) (st : Streams) :
    (reportDiagnostics tu.diagnostics (0, st)).1 = numErrorDiagnostics tu.diagnostics := by
  have h := reportDiagnostics_fst tu.diagnostics (0, st) (by simpa using tu.numDiagnostics_lt)
  simpa [numErrorDiagnostics] using h

theorem numErrorDiagnostics_eq_zero_iff (diags : List CXDiagnostic) :
    numErrorDiagnostics diags = 0
      ↔ ∀ d ∈ diags, d.severity ≠ .Fatal ∧ d.severity ≠ .Error := by
  unfold numErrorDiagnostics
  rw [List.countP_eq_zero]
  constructor
  · intro h d hd
    have := h d hd
    cases hs : d.severity <;> simp_all [isErrorSeverity]
  · intro h d hd
    have := h d hd
    cases hs : d.severity <;> simp_all [isErrorSeverity]

theorem writeHeading_colorCalls (win32 : Bool) (inputFilename : String) (interpretAsCpp : Bool)
    (st : Streams) :
    (writeHeading win32 inputFilename interpretAsCpp st).colorCalls = st.colorCalls := by
  cases interpretAsCpp <;> rfl

theorem GenerateMock_value {Config : Type} (win32 : Bool)
    (parse : String → List String → Option CXTranslationUnit) (cls : DeclClasses Config)
    (inputFilename : String) (config : Config) (interpretAsCpp : Bool)
    (includePaths : List String) (st : Streams) (tu : CXTranslationUnit)
    (h : parse inputFilename (clangOpts interpretAsCpp includePaths) = some tu) :
    (GenerateMock win32 parse cls inputFilename config interpretAsCpp includePaths st).value
      = some (numErrorDiagnostics tu.diagnostics == 0) := by
  unfold GenerateMock
  rw [h]
  simp only [reportDiagnostics_guard, numErrors_eq, Outcome.value]

theorem GenerateMock_cerr {Config : Type} (win32 : Bool)
    (parse : String → List String → Option CXTranslationUnit) (cls : DeclClasses Config)
    (inputFilename : String) (config : Config) (interpretAsCpp : Bool)
    (includePaths : List String) (st : Streams) (tu : CXTranslationUnit)
    (h : parse inputFilename (clangOpts interpretAsCpp includePaths) = some tu) :
    (GenerateMock win32 parse cls inputFilename config interpretAsCpp includePaths st).streams.cerr
      = st.cerr ++ concatText (tu.diagnostics.map diagnosticLine) := by
  unfold GenerateMock
  rw [h]
  simp only [reportDiagnostics_guard, numErrors_eq, Outcome.streams]
  split
  · simp only [writeHeading_cerr, reportDiagnostics_cerr]
  · simp only [reportDiagnostics_cerr]

theorem GenerateMock_output {Config : Type} (win32 : Bool)
    (parse : String → List String → Option CXTranslationUnit) (cls : DeclClasses Config)
    (inputFilename : String) (config : Config) (interpretAsCpp : Bool)
    (includePaths : List String) (st : Streams) (tu : CXTranslationUnit)
    (h : parse inputFilename (clangOpts interpretAsCpp includePaths) = some tu) :
    (GenerateMock win32 parse cls inputFilename config interpretAsCpp includePaths st).streams.output
      = if numErrorDiagnostics tu.diagnostics = 0 then
          st.output ++ headingText win32 inputFilename interpretAsCpp
            ++ mocksText cls config (visitedDecls tu.cursor)
        else st.output := by
  unfold GenerateMock
  rw [h]
  simp only [reportDiagnostics_guard, numErrors_eq, Outcome.streams]
  split
  · simp only [clang_getTranslationUnitCursor, clang_visitChildren_visitor, writeHeading_output,
      reportDiagnostics_output]
  · simp only [reportDiagnostics_output]

theorem mocksText_eq_filter {Config : Type} (cls : DeclClasses Config) (config : Config)
    (decls : List CXCursor) :
    mocksText cls config decls
      = concatText ((decls.filter (declIsMockable cls config)).map fun cursor =>
          declMock cls config cursor ++ "\n") := by
  induction decls with
  | nil => rfl
  | cons c cs ih =>
    unfold mocksText at ih ⊢
    by_cases hm : declIsMockable cls config c = true
    · simp [hm, concatText, ih]
    · simp [hm, concatText, ih]

mutual
theorem visitedDecls_main_decl : ∀ (cursor c : CXCursor), c ∈ visitedDecls cursor →
    clang_Location_isFromMainFile c ≠ 0 ∧ isDeclCursor c = true
  | .mk _ _ _ children, c, hc => by
    rw [visitedDecls] at hc
    exact visitedDeclsList_main_decl children c hc
theorem visitedDeclsList_main_decl : ∀ (cursors : List CXCursor) (c : CXCursor),
    c ∈ visitedDeclsList cursors →
    clang_Location_isFromMainFile c ≠ 0 ∧ isDeclCursor c = true
  | [], c, hc => by simp [visitedDeclsList] at hc
  | cursor :: rest, c, hc => by
    rw [visitedDeclsList, List.mem_append] at hc
    rcases hc with hc | hc
    · by_cases h : clang_Location_isFromMainFile cursor = 0
      · simp [h] at hc
      · cases hk : isDeclCursor cursor
        · simp only [ne_eq, h, not_false_eq_true, if_true, hk, Bool.false_eq_true,
            if_false] at hc
          exact visitedDecls_main_decl cursor c hc
        · simp only [ne_eq, h, not_false_eq_true, if_true, hk, List.mem_singleton] at hc
          subst hc
          exact ⟨h, hk⟩
    · exact visitedDeclsList_main_decl rest c hc
end

mutual
theorem visitedDecls_sublist : ∀ (cursor : CXCursor),
    List.Sublist (visitedDecls cursor) (descendants cursor)
  | .mk _ _ _ children => by
    rw [visitedDecls, descendants]
    exact visitedDeclsList_sublist children
theorem visitedDeclsList_sublist : ∀ (cursors : List CXCursor),
    List.Sublist (visitedDeclsList cursors) (preorderList cursors)
  | [] => by simp [visitedDeclsList, preorderList]
  | cursor :: rest => by
    rw [visitedDeclsList, preorderList]
    have hrest := visitedDeclsList_sublist rest
    by_cases h : clang_Location_isFromMainFile cursor = 0
    · simp only [h, ne_eq, not_true_eq_false, if_false, List.nil_append]
      exact List.Sublist.cons _ (List.sublist_append_of_sublist_right hrest)
    · cases hk : isDeclCursor cursor
      · simp only [ne_eq, h, not_false_eq_true, if_true, Bool.false_eq_true, if_false]
        exact List.Sublist.cons _ (List.Sublist.append (visitedDecls_sublist cursor) hrest)
      · simp only [ne_eq, h, not_false_eq_true, if_true, List.singleton_append]
        exact List.Sublist.cons₂ _ (List.sublist_append_of_sublist_right hrest)
end

theorem mockedDecls_sublist {Config : Type} (cls : DeclClasses Config) (config : Config)
    (cursor : CXCursor) :
    List.Sublist (mockedDecls cls config cursor) (descendants cursor) :=
  (List.filter_sublist _).trans (visitedDecls_sublist cursor)

/-! ## Properties of `GenerateMock` -/

/-- C1: when the front-end yields a translation unit, `GenerateMock` returns, and it
returns `true` exactly when no diagnostic of the unit has severity `Fatal` or
`Error`. -/
theorem GenerateMock_true_iff_no_error {Config : Type} (win32 : Bool)
    (parse : String → List String → Option CXTranslationUnit) (cls : DeclClasses Config)
    (inputFilename : String) (config : Config) (interpretAsCpp : Bool)
    (includePaths : List String) (st : Streams) (tu : CXTranslationUnit)
    (h : parse inputFilename (clangOpts interpretAsCpp includePaths) = some tu) :
    (∃ b, (GenerateMock win32 parse cls inputFilename config interpretAsCpp includePaths
        st).value = some b) ∧
    ((GenerateMock win32 parse cls inputFilename config interpretAsCpp includePaths
        st).value = some true
      ↔ ∀ d ∈ tu.diagnostics, d.severity ≠ .Fatal ∧ d.severity ≠ .Error) := by
  rw [GenerateMock_value win32 parse cls inputFilename config interpretAsCpp includePaths st tu h]
  refine ⟨⟨_, rfl⟩, ?_⟩
  rw [← numErrorDiagnostics_eq_zero_iff]
  simp

theorem GenerateMock_true_iff_no_error_witness :
    exampleFrontEnd exampleErrorUnit "foo.h" (clangOpts false ["inc"]) = some exampleErrorUnit ∧
    ((∃ b, (GenerateMock false (exampleFrontEnd exampleErrorUnit) exampleClasses "foo.h" 7 false
        ["inc"] ⟨"", "", []⟩).value = some b) ∧
    ((GenerateMock false (exampleFrontEnd exampleErrorUnit) exampleClasses "foo.h" 7 false
        ["inc"] ⟨"", "", []⟩).value = some true
      ↔ ∀ d ∈ exampleErrorUnit.diagnostics, d.severity ≠ .Fatal ∧ d.severity ≠ .Error)) :=
  ⟨rfl, GenerateMock_true_iff_no_error false (exampleFrontEnd exampleErrorUnit) exampleClasses
    "foo.h" 7 false ["inc"] ⟨"", "", []⟩ exampleErrorUnit rfl⟩

/-- C2: for the header `void function1(int a);` whose function is not mockable and
which has no diagnostics, `GenerateMock` returns `true`, writes the heading and no
mock to the output, and writes nothing to the error stream. -/
theorem GenerateMock_nonMockable_header_returns_true :
    GenerateMock false (fun _ _ => some function1Unit) nonMockableClasses
        "CppUMockGen_MockGenerator.h" 836487567 false [] ⟨"", "", []⟩
      = .returned true
          ⟨"/* This file has been auto-generated by CppUTestMock. DO NOT EDIT IT!!! */\n\n"
            ++ "extern \"C\" \x7b\n#include \"CppUMockGen_MockGenerator.h\"\n\x7d\n\n"
            ++ "#include <CppUTestExt/MockSupport.h>\n\n", "", []⟩ := by
  rfl

/-- C3: when some diagnostic of the translation unit has severity `Fatal` or `Error`,
the output stream after `GenerateMock` holds exactly what it held before. -/
theorem GenerateMock_error_writes_no_output {Config : Type} (win32 : Bool)
    (parse : String → List String → Option CXTranslationUnit) (cls : DeclClasses Config)
    (inputFilename : String) (config : Config) (interpretAsCpp : Bool)
    (includePaths : List String) (st : Streams) (tu : CXTranslationUnit)
    (h : parse inputFilename (clangOpts interpretAsCpp includePaths) = some tu)
    (herr : ∃ d ∈ tu.diagnostics, d.severity = .Fatal ∨ d.severity = .Error) :
    (GenerateMock win32 parse cls inputFilename config interpretAsCpp includePaths
        st).streams.output = st.output := by
  rw [GenerateMock_output win32 parse cls inputFilename config interpretAsCpp includePaths st tu h]
  have hne : ¬ numErrorDiagnostics tu.diagnostics = 0 := by
    rw [numErrorDiagnostics_eq_zero_iff]
    intro hall
    obtain ⟨d, hd, hs⟩ := herr
    have := hall d hd
    rcases hs with hs | hs
    · exact this.1 hs
    · exact this.2 hs
  simp [hne]

theorem GenerateMock_error_writes_no_output_witness :
    exampleFrontEnd exampleErrorUnit "foo.h" (clangOpts true []) = some exampleErrorUnit ∧
    (∃ d ∈ exampleErrorUnit.diagnostics, d.severity = .Fatal ∨ d.severity = .Error) ∧
    (GenerateMock false (exampleFrontEnd exampleErrorUnit) exampleClasses "foo.h" 7 true []
        ⟨"kept", "", []⟩).streams.output = "kept" :=
  ⟨rfl, ⟨⟨.Error, "foo.h:2:1: error: unknown type"⟩, by decide, Or.inr rfl⟩,
    GenerateMock_error_writes_no_output false (exampleFrontEnd exampleErrorUnit) exampleClasses
      "foo.h" 7 true [] ⟨"kept", "", []⟩ exampleErrorUnit rfl
      ⟨⟨.Error, "foo.h:2:1: error: unknown type"⟩, by decide, Or.inr rfl⟩⟩

/-- C4: when the front-end yields no translation unit for
`CppUMockGen_MockGenerator_NotExisting.h`, `GenerateMock` leaves the process with
`exit( -1 )` after writing `Unable to parse translation unit. Quitting.` to the
error stream; it returns no value. -/
theorem GenerateMock_no_translation_unit_exits :
    GenerateMock false (fun _ _ => none) exampleClasses
        "/tmp/CppUMockGen_MockGenerator_NotExisting.h" 836487567 false [] ⟨"", "", []⟩
      = .exited (-1) ⟨"", "Unable to parse translation unit. Quitting.\n", []⟩ := by
  decide

/-- C5: every mock `GenerateMock` writes comes from a cursor of the AST whose kind is
`CXCursor_FunctionDecl` or `CXCursor_CXXMethod` and for which
`clang_Location_isFromMainFile` is non-zero: the output is either left as it was, or
extended by the heading and the mocks of the cursors `mockedDecls` lists, and every
one of these is such a cursor. -/
theorem GenerateMock_mocks_from_main_file {Config : Type} (win32 : Bool)
    (parse : String → List String → Option CXTranslationUnit) (cls : DeclClasses Config)
    (inputFilename : String) (config : Config) (interpretAsCpp : Bool)
    (includePaths : List String) (st : Streams) (tu : CXTranslationUnit)
    (h : parse inputFilename (clangOpts interpretAsCpp includePaths) = some tu) :
    ((GenerateMock win32 parse cls inputFilename config interpretAsCpp includePaths
        st).streams.output = st.output ∨
     (GenerateMock win32 parse cls inputFilename config interpretAsCpp includePaths
        st).streams.output
      = st.output ++ headingText win32 inputFilename interpretAsCpp
        ++ concatText ((mockedDecls cls config tu.cursor).map fun c =>
            declMock cls config c ++ "\n")) ∧
    ∀ c ∈ mockedDecls cls config tu.cursor,
      clang_Location_isFromMainFile c ≠ 0 ∧
      (clang_getCursorKind c = CXCursor_FunctionDecl ∨
        clang_getCursorKind c = CXCursor_CXXMethod) ∧
      c ∈ descendants tu.cursor := by
  constructor
  · rw [GenerateMock_output win32 parse cls inputFilename config interpretAsCpp includePaths st
      tu h]
    by_cases hz : numErrorDiagnostics tu.diagnostics = 0
    · right
      simp only [hz, if_true, mocksText_eq_filter, mockedDecls]
    · left
      simp only [hz, if_false]
  · intro c hc
    have hv : c ∈ visitedDecls tu.cursor := (List.mem_filter.mp hc).1
    have hmain := visitedDecls_main_decl tu.cursor c hv
    refine ⟨hmain.1, ?_, (mockedDecls_sublist cls config tu.cursor).subset hc⟩
    have hk := hmain.2
    unfold isDeclCursor at hk
    simpa using hk

theorem GenerateMock_mocks_from_main_file_witness :
    exampleFrontEnd exampleWarningUnit "foo.h" (clangOpts true []) = some exampleWarningUnit ∧
    (((GenerateMock false (exampleFrontEnd exampleWarningUnit) exampleClasses "foo.h" 7 true []
        ⟨"", "", []⟩).streams.output = "" ∨
     (GenerateMock false (exampleFrontEnd exampleWarningUnit) exampleClasses "foo.h" 7 true []
        ⟨"", "", []⟩).streams.output
      = "" ++ headingText false "foo.h" true
        ++ concatText ((mockedDecls exampleClasses 7 exampleWarningUnit.cursor).map fun c =>
            declMock exampleClasses 7 c ++ "\n")) ∧
    ∀ c ∈ mockedDecls exampleClasses 7 exampleWarningUnit.cursor,
      clang_Location_isFromMainFile c ≠ 0 ∧
      (clang_getCursorKind c = CXCursor_FunctionDecl ∨
        clang_getCursorKind c = CXCursor_CXXMethod) ∧
      c ∈ descendants exampleWarningUnit.cursor) :=
  ⟨rfl, GenerateMock_mocks_from_main_file false (exampleFrontEnd exampleWarningUnit)
    exampleClasses "foo.h" 7 true [] ⟨"", "", []⟩ exampleWarningUnit rfl⟩

/-- C6: for a translation unit without `Fatal` or `Error` diagnostics, the output is
extended by the heading and then, for each declaration the walk visits, in order, by
its mock and a line feed when it is mockable and by nothing when it is not; so the
mocks written are those of the mockable visited declarations, one each, and their
number is the number of mockable visited declarations. -/
theorem GenerateMock_one_mock_per_mockable_decl {Config : Type} (win32 : Bool)
    (parse : String → List String → Option CXTranslationUnit) (cls : DeclClasses Config)
    (inputFilename : String) (config : Config) (interpretAsCpp : Bool)
    (includePaths : List String) (st : Streams) (tu : CXTranslationUnit)
    (h : parse inputFilename (clangOpts interpretAsCpp includePaths) = some tu)
    (hno : ∀ d ∈ tu.diagnostics, d.severity ≠ .Fatal ∧ d.severity ≠ .Error) :
    (GenerateMock win32 parse cls inputFilename config interpretAsCpp includePaths
        st).streams.output
      = st.output ++ headingText win32 inputFilename interpretAsCpp
        ++ concatText ((visitedDecls tu.cursor).map fun c =>
            if declIsMockable cls config c then declMock cls config c ++ "\n" else "") ∧
    (GenerateMock win32 parse cls inputFilename config interpretAsCpp includePaths
        st).streams.output
      = st.output ++ headingText win32 inputFilename interpretAsCpp
        ++ concatText (((visitedDecls tu.cursor).filter (declIsMockable cls config)).map
            fun c => declMock cls config c ++ "\n") ∧
    ((visitedDecls tu.cursor).filter (declIsMockable cls config)).length
      = (visitedDecls tu.cursor).countP (declIsMockable cls config) := by
  have hz : numErrorDiagnostics tu.diagnostics = 0 :=
    (numErrorDiagnostics_eq_zero_iff tu.diagnostics).mpr hno
  rw [GenerateMock_output win32 parse cls inputFilename config interpretAsCpp includePaths st
    tu h]
  simp only [hz, if_true]
  refine ⟨rfl, ?_, ?_⟩
  · rw [mocksText_eq_filter]
  · rw [List.countP_eq_length_filter]

theorem GenerateMock_one_mock_per_mockable_decl_witness :
    exampleFrontEnd exampleCleanUnit "foo.h" (clangOpts true []) = some exampleCleanUnit ∧
    (∀ d ∈ exampleCleanUnit.diagnostics, d.severity ≠ .Fatal ∧ d.severity ≠ .Error) ∧
    ((GenerateMock false (exampleFrontEnd exampleCleanUnit) exampleClasses "foo.h" 7 true []
        ⟨"", "", []⟩).streams.output
      = "" ++ headingText false "foo.h" true
        ++ concatText ((visitedDecls exampleCleanUnit.cursor).map fun c =>
            if declIsMockable exampleClasses 7 c then declMock exampleClasses 7 c ++ "\n"
            else "") ∧
    (GenerateMock false (exampleFrontEnd exampleCleanUnit) exampleClasses "foo.h" 7 true []
        ⟨"", "", []⟩).streams.output
      = "" ++ headingText false "foo.h" true
        ++ concatText (((visitedDecls exampleCleanUnit.cursor).filter
            (declIsMockable exampleClasses 7)).map fun c => declMock exampleClasses 7 c ++ "\n") ∧
    ((visitedDecls exampleCleanUnit.cursor).filter (declIsMockable exampleClasses 7)).length
      = (visitedDecls exampleCleanUnit.cursor).countP (declIsMockable exampleClasses 7)) :=
  ⟨rfl, by decide, GenerateMock_one_mock_per_mockable_decl false
    (exampleFrontEnd exampleCleanUnit) exampleClasses "foo.h" 7 true [] ⟨"", "", []⟩
    exampleCleanUnit rfl (by decide)⟩

/-- C7: for a translation unit without `Fatal` or `Error` diagnostics, the mocked
declarations are listed in the order of the pre-order walk of the AST, and when
mocked declaration `a` comes before mocked declaration `b` in that list the mock of
`a` is written before the mock of `b`. -/
theorem GenerateMock_mocks_in_declaration_order {Config : Type} (win32 : Bool)
    (parse : String → List String → Option CXTranslationUnit) (cls : DeclClasses Config)
    (inputFilename : String) (config : Config) (interpretAsCpp : Bool)
    (includePaths : List String) (st : Streams) (tu : CXTranslationUnit)
    (h : parse inputFilename (clangOpts interpretAsCpp includePaths) = some tu)
    (hno : ∀ d ∈ tu.diagnostics, d.severity ≠ .Fatal ∧ d.severity ≠ .Error) :
    List.Sublist (mockedDecls cls config tu.cursor) (descendants tu.cursor) ∧
    ∀ (before : List CXCursor) (a : CXCursor) (between : List CXCursor) (b : CXCursor)
      (after : List CXCursor),
      mockedDecls cls config tu.cursor = before ++ a :: (between ++ b :: after) →
      (GenerateMock win32 parse cls inputFilename config interpretAsCpp includePaths
          st).streams.output
        = st.output ++ headingText win32 inputFilename interpretAsCpp
          ++ concatText (before.map fun c => declMock cls config c ++ "\n")
          ++ declMock cls config a ++ "\n"
          ++ concatText (between.map fun c => declMock cls config c ++ "\n")
          ++ declMock cls config b ++ "\n"
          ++ concatText (after.map fun c => declMock cls config c ++ "\n") := by
  refine ⟨mockedDecls_sublist cls config tu.cursor, ?_⟩
  intro before a between b after hsplit
  have hz : numErrorDiagnostics tu.diagnostics = 0 :=
    (numErrorDiagnostics_eq_zero_iff tu.diagnostics).mpr hno
  rw [GenerateMock_output win32 parse cls inputFilename config interpretAsCpp includePaths st
    tu h]
  simp only [hz, if_true]
  rw [mocksText_eq_filter]
  unfold mockedDecls at hsplit
  rw [hsplit]
  simp [concatText_append, concatText, String.append_assoc]

theorem GenerateMock_mocks_in_declaration_order_witness :
    exampleFrontEnd exampleCleanUnit "foo.h" (clangOpts false []) = some exampleCleanUnit ∧
    (∀ d ∈ exampleCleanUnit.diagnostics, d.severity ≠ .Fatal ∧ d.severity ≠ .Error) ∧
    mockedDecls exampleClasses 7 exampleCleanUnit.cursor
      = [] ++ .mk 8 1 "f1" [.mk 10 1 "p" []] :: ([] ++ .mk 21 1 "m1" [] :: []) ∧
    (GenerateMock false (exampleFrontEnd exampleCleanUnit) exampleClasses "foo.h" 7 false []
        ⟨"", "", []⟩).streams.output
      = "" ++ headingText false "foo.h" false
        ++ concatText (([] : List CXCursor).map fun c => declMock exampleClasses 7 c ++ "\n")
        ++ declMock exampleClasses 7 (.mk 8 1 "f1" [.mk 10 1 "p" []]) ++ "\n"
        ++ concatText (([] : List CXCursor).map fun c => declMock exampleClasses 7 c ++ "\n")
        ++ declMock exampleClasses 7 (.mk 21 1 "m1" []) ++ "\n"
        ++ concatText (([] : List CXCursor).map fun c => declMock exampleClasses 7 c ++ "\n") :=
  ⟨rfl, by decide, rfl,
    (GenerateMock_mocks_in_declaration_order false (exampleFrontEnd exampleCleanUnit)
      exampleClasses "foo.h" 7 false [] ⟨"", "", []⟩ exampleCleanUnit rfl (by decide)).2
      [] (.mk 8 1 "f1" [.mk 10 1 "p" []]) [] (.mk 21 1 "m1" []) [] rfl⟩

/-- C8: when every diagnostic of the translation unit has severity `Warning`, `Note`
or `Ignored`, `GenerateMock` returns `true` and leaves the output stream as a call
does whose front-end yields the same AST with no diagnostics at all, for the same
file name, configuration and options. -/
theorem GenerateMock_warnings_do_not_alter_output {Config : Type} (win32 : Bool)
    (parse parse0 : String → List String → Option CXTranslationUnit) (cls : DeclClasses Config)
    (inputFilename : String) (config : Config) (interpretAsCpp : Bool)
    (includePaths : List String) (st : Streams) (tu tu0 : CXTranslationUnit)
    (h : parse inputFilename (clangOpts interpretAsCpp includePaths) = some tu)
    (hw : ∀ d ∈ tu.diagnostics,
      d.severity = .Warning ∨ d.severity = .Note ∨ d.severity = .Ignored)
    (h0 : parse0 inputFilename (clangOpts interpretAsCpp includePaths) = some tu0)
    (hd0 : tu0.diagnostics = []) (hc0 : tu0.cursor = tu.cursor) :
    (GenerateMock win32 parse cls inputFilename config interpretAsCpp includePaths
        st).value = some true ∧
    (GenerateMock win32 parse cls inputFilename config interpretAsCpp includePaths
        st).streams.output
      = (GenerateMock win32 parse0 cls inputFilename config interpretAsCpp includePaths
          st).streams.output := by
  have hz : numErrorDiagnostics tu.diagnostics = 0 := by
    rw [numErrorDiagnostics_eq_zero_iff]
    intro d hd
    rcases hw d hd with hs | hs | hs <;> simp [hs]
  have hz0 : numErrorDiagnostics tu0.diagnostics = 0 := by
    rw [hd0]
    rfl
  rw [GenerateMock_value win32 parse cls inputFilename config interpretAsCpp includePaths st tu h,
    GenerateMock_output win32 parse cls inputFilename config interpretAsCpp includePaths st tu h,
    GenerateMock_output win32 parse0 cls inputFilename config interpretAsCpp includePaths st tu0
      h0]
  simp [hz, hz0, hc0]

theorem GenerateMock_warnings_do_not_alter_output_witness :
    exampleFrontEnd exampleWarningUnit "foo.h" (clangOpts false []) = some exampleWarningUnit ∧
    (∀ d ∈ exampleWarningUnit.diagnostics,
      d.severity = .Warning ∨ d.severity = .Note ∨ d.severity = .Ignored) ∧
    exampleFrontEnd exampleCleanUnit "foo.h" (clangOpts false []) = some exampleCleanUnit ∧
    exampleCleanUnit.diagnostics = [] ∧
    exampleCleanUnit.cursor = exampleWarningUnit.cursor ∧
    (GenerateMock false (exampleFrontEnd exampleWarningUnit) exampleClasses "foo.h" 7 false []
        ⟨"", "", []⟩).value = some true ∧
    (GenerateMock false (exampleFrontEnd exampleWarningUnit) exampleClasses "foo.h" 7 false []
        ⟨"", "", []⟩).streams.output
      = (GenerateMock false (exampleFrontEnd exampleCleanUnit) exampleClasses "foo.h" 7 false []
          ⟨"", "", []⟩).streams.output :=
  ⟨rfl, by decide, rfl, rfl, rfl,
    GenerateMock_warnings_do_not_alter_output false (exampleFrontEnd exampleWarningUnit)
      (exampleFrontEnd exampleCleanUnit) exampleClasses "foo.h" 7 false [] ⟨"", "", []⟩
      exampleWarningUnit exampleCleanUnit rfl (by decide) rfl rfl rfl⟩

/-- C9: whenever the front-end yields a translation unit, the error stream after
`GenerateMock` is the error stream before it followed by one line per diagnostic, in
the order of the front-end: the label of its severity, its formatted text and a line
feed, whatever the severities are. -/
theorem GenerateMock_reports_every_diagnostic {Config : Type} (win32 : Bool)
    (parse : String → List String → Option CXTranslationUnit) (cls : DeclClasses Config)
    (inputFilename : String) (config : Config) (interpretAsCpp : Bool)
    (includePaths : List String) (st : Streams) (tu : CXTranslationUnit)
    (h : parse inputFilename (clangOpts interpretAsCpp includePaths) = some tu) :
    (GenerateMock win32 parse cls inputFilename config interpretAsCpp includePaths
        st).streams.cerr
      = st.cerr ++ concatText (tu.diagnostics.map fun d =>
          severityLabel d.severity ++ d.formatted ++ "\n") := by
  rw [GenerateMock_cerr win32 parse cls inputFilename config interpretAsCpp includePaths st tu h]
  rfl

theorem GenerateMock_reports_every_diagnostic_witness :
    exampleFrontEnd exampleErrorUnit "foo.h" (clangOpts false []) = some exampleErrorUnit ∧
    (GenerateMock false (exampleFrontEnd exampleErrorUnit) exampleClasses "foo.h" 7 false []
        ⟨"", "log:", []⟩).streams.cerr
      = "log:" ++ concatText (exampleErrorUnit.diagnostics.map fun d =>
          severityLabel d.severity ++ d.formatted ++ "\n") :=
  ⟨rfl, GenerateMock_reports_every_diagnostic false (exampleFrontEnd exampleErrorUnit)
    exampleClasses "foo.h" 7 false [] ⟨"", "log:", []⟩ exampleErrorUnit rfl⟩

/-- C10: in the error stream, the formatted text of a diagnostic comes right after
what was reported for the diagnostics before it, preceded by `PARSE ERROR: ` when its
severity is `Fatal` or `Error`, by `PARSE WARNING: ` when it is `Warning`, and by
nothing when it is `Note` or `Ignored`. -/
theorem GenerateMock_labels_diagnostic_by_severity {Config : Type} (win32 : Bool)
    (parse : String → List String → Option CXTranslationUnit) (cls : DeclClasses Config)
    (inputFilename : String) (config : Config) (interpretAsCpp : Bool)
    (includePaths : List String) (st : Streams) (tu : CXTranslationUnit)
    (pre : List CXDiagnostic) (d : CXDiagnostic) (post : List CXDiagnostic)
    (h : parse inputFilename (clangOpts interpretAsCpp includePaths) = some tu)
    (hsplit : tu.diagnostics = pre ++ d :: post) :
    ((d.severity = .Fatal ∨ d.severity = .Error) →
      (GenerateMock win32 parse cls inputFilename config interpretAsCpp includePaths
          st).streams.cerr
        = st.cerr ++ concatText (pre.map diagnosticLine) ++ "PARSE ERROR: " ++ d.formatted
          ++ "\n" ++ concatText (post.map diagnosticLine)) ∧
    (d.severity = .Warning →
      (GenerateMock win32 parse cls inputFilename config interpretAsCpp includePaths
          st).streams.cerr
        = st.cerr ++ concatText (pre.map diagnosticLine) ++ "PARSE WARNING: " ++ d.formatted
          ++ "\n" ++ concatText (post.map diagnosticLine)) ∧
    ((d.severity = .Note ∨ d.severity = .Ignored) →
      (GenerateMock win32 parse cls inputFilename config interpretAsCpp includePaths
          st).streams.cerr
        = st.cerr ++ concatText (pre.map diagnosticLine) ++ d.formatted
          ++ "\n" ++ concatText (post.map diagnosticLine)) := by
  rw [GenerateMock_cerr win32 parse cls inputFilename config interpretAsCpp includePaths st tu h,
    hsplit]
  refine ⟨?_, ?_, ?_⟩
  · intro hs
    rcases hs with hs | hs <;>
      simp [concatText_append, concatText, diagnosticLine, severityLabel, hs,
        String.append_assoc]
  · intro hs
    simp [concatText_append, concatText, diagnosticLine, severityLabel, hs,
      String.append_assoc]
  · intro hs
    rcases hs with hs | hs <;>
      simp [concatText_append, concatText, diagnosticLine, severityLabel, hs,
        String.append_assoc]

theorem GenerateMock_labels_diagnostic_by_severity_witness :
    exampleFrontEnd exampleErrorUnit "foo.h" (clangOpts false []) = some exampleErrorUnit ∧
    exampleErrorUnit.diagnostics
      = [⟨.Warning, "foo.h:1:2: warning: test"⟩]
        ++ ⟨.Error, "foo.h:2:1: error: unknown type"⟩ :: [] ∧
    (GenerateMock false (exampleFrontEnd exampleErrorUnit) exampleClasses "foo.h" 7 false []
        ⟨"", "", []⟩).streams.cerr
      = "" ++ concatText ([(⟨.Warning, "foo.h:1:2: warning: test"⟩ : CXDiagnostic)].map
            diagnosticLine)
          ++ "PARSE ERROR: " ++ "foo.h:2:1: error: unknown type" ++ "\n"
          ++ concatText (([] : List CXDiagnostic).map diagnosticLine) :=
  ⟨rfl, rfl,
    (GenerateMock_labels_diagnostic_by_severity false (exampleFrontEnd exampleErrorUnit)
      exampleClasses "foo.h" 7 false [] ⟨"", "", []⟩ exampleErrorUnit
      [⟨.Warning, "foo.h:1:2: warning: test"⟩] ⟨.Error, "foo.h:2:1: error: unknown type"⟩ []
      rfl rfl).1 (Or.inr rfl)⟩

theorem reportDiagnostic_colorCalls_fst (acc acc2 : Nat × Streams) (diag : CXDiagnostic)
    (h : acc.2.colorCalls = acc2.2.colorCalls) :
    (reportDiagnostic acc diag).2.colorCalls = (reportDiagnostic acc2 diag).2.colorCalls := by
  unfold reportDiagnostic
  cases diag.severity <;> simp [writeCerr, SetColor, h]

theorem GenerateMock_colorCalls {Config : Type} (win32 : Bool)
    (parse : String → List String → Option CXTranslationUnit) (cls : DeclClasses Config)
    (inputFilename : String) (config : Config) (interpretAsCpp : Bool)
    (includePaths : List String) (st : Streams) (tu : CXTranslationUnit)
    (h : parse inputFilename (clangOpts interpretAsCpp includePaths) = some tu) :
    (GenerateMock win32 parse cls inputFilename config interpretAsCpp includePaths
        st).streams.colorCalls
      = (reportDiagnostics tu.diagnostics (0, st)).2.colorCalls := by
  unfold GenerateMock
  rw [h]
  simp only [reportDiagnostics_guard, numErrors_eq, Outcome.streams]
  split
  · simp only [writeHeading_colorCalls]
  · rfl

theorem headingText_eq (win32 : Bool) (inputFilename : String) (interpretAsCpp : Bool) :
    headingText win32 inputFilename interpretAsCpp
      = "/* This file has been auto-generated by CppUTestMock. DO NOT EDIT IT!!! */\n\n"
        ++ (if interpretAsCpp then "" else "extern \"C\" \x7b\n")
        ++ "#include \"" ++ GetFilenameFromPath win32 inputFilename ++ "\"\n"
        ++ (if interpretAsCpp then "" else "\x7d\n")
        ++ "\n#include <CppUTestExt/MockSupport.h>\n\n" := by
  cases interpretAsCpp <;>
    simp [headingText, writeHeading, writeOutput, endl, String.append_assoc]

/-- C11: when the translation unit has no diagnostics and at least one declaration
gets a mock, `GenerateMock` returns `true`, leaves the error stream as it was and
makes no call to `SetColor`. -/
theorem GenerateMock_no_diagnostics_is_silent {Config : Type} (win32 : Bool)
    (parse : String → List String → Option CXTranslationUnit) (cls : DeclClasses Config)
    (inputFilename : String) (config : Config) (interpretAsCpp : Bool)
    (includePaths : List String) (st : Streams) (tu : CXTranslationUnit)
    (h : parse inputFilename (clangOpts interpretAsCpp includePaths) = some tu)
    (hd : tu.diagnostics = [])
    (_hm : mockedDecls cls config tu.cursor ≠ []) :
    (GenerateMock win32 parse cls inputFilename config interpretAsCpp includePaths
        st).value = some true ∧
    (GenerateMock win32 parse cls inputFilename config interpretAsCpp includePaths
        st).streams.cerr = st.cerr ∧
    (GenerateMock win32 parse cls inputFilename config interpretAsCpp includePaths
        st).streams.colorCalls = st.colorCalls := by
  rw [GenerateMock_value win32 parse cls inputFilename config interpretAsCpp includePaths st tu h,
    GenerateMock_cerr win32 parse cls inputFilename config interpretAsCpp includePaths st tu h,
    GenerateMock_colorCalls win32 parse cls inputFilename config interpretAsCpp includePaths st
      tu h, hd]
  refine ⟨rfl, ?_, rfl⟩
  simp [concatText]

theorem GenerateMock_no_diagnostics_is_silent_witness :
    exampleFrontEnd exampleCleanUnit "foo.h" (clangOpts false []) = some exampleCleanUnit ∧
    exampleCleanUnit.diagnostics = [] ∧
    mockedDecls exampleClasses 7 exampleCleanUnit.cursor ≠ [] ∧
    (GenerateMock false (exampleFrontEnd exampleCleanUnit) exampleClasses "foo.h" 7 false []
        ⟨"", "", []⟩).value = some true ∧
    (GenerateMock false (exampleFrontEnd exampleCleanUnit) exampleClasses "foo.h" 7 false []
        ⟨"", "", []⟩).streams.cerr = "" ∧
    (GenerateMock false (exampleFrontEnd exampleCleanUnit) exampleClasses "foo.h" 7 false []
        ⟨"", "", []⟩).streams.colorCalls = [] :=
  ⟨rfl, rfl, by simp [mockedDecls, visitedDecls, visitedDeclsList, exampleCleanUnit,
      exampleCursor, clang_Location_isFromMainFile, isDeclCursor, clang_getCursorKind,
      CXCursor_FunctionDecl, CXCursor_CXXMethod, declIsMockable, exampleClasses],
    GenerateMock_no_diagnostics_is_silent false (exampleFrontEnd exampleCleanUnit)
      exampleClasses "foo.h" 7 false [] ⟨"", "", []⟩ exampleCleanUnit rfl rfl
      (by simp [mockedDecls, visitedDecls, visitedDeclsList, exampleCleanUnit,
        exampleCursor, clang_Location_isFromMainFile, isDeclCursor, clang_getCursorKind,
        CXCursor_FunctionDecl, CXCursor_CXXMethod, declIsMockable, exampleClasses])⟩

/-- C12: for a translation unit without `Fatal` or `Error` diagnostics, when
`interpretAsCpp` is false the output gets the line `extern "C" {`, the include of
the original header and the line `}`, in this order and next to each other; when
`interpretAsCpp` is true the include of the original header follows the blank line
after the banner directly and is followed directly by the blank line before the
include of the mocking framework. -/
theorem GenerateMock_extern_C_block {Config : Type} (win32 : Bool)
    (parse : String → List String → Option CXTranslationUnit) (cls : DeclClasses Config)
    (inputFilename : String) (config : Config) (interpretAsCpp : Bool)
    (includePaths : List String) (st : Streams) (tu : CXTranslationUnit)
    (h : parse inputFilename (clangOpts interpretAsCpp includePaths) = some tu)
    (hno : ∀ d ∈ tu.diagnostics, d.severity ≠ .Fatal ∧ d.severity ≠ .Error) :
    (interpretAsCpp = false →
      (GenerateMock win32 parse cls inputFilename config interpretAsCpp includePaths
          st).streams.output
        = st.output
          ++ "/* This file has been auto-generated by CppUTestMock. DO NOT EDIT IT!!! */\n\n"
          ++ "extern \"C\" \x7b\n"
          ++ "#include \"" ++ GetFilenameFromPath win32 inputFilename ++ "\"\n"
          ++ "\x7d\n"
          ++ "\n#include <CppUTestExt/MockSupport.h>\n\n"
          ++ mocksText cls config (visitedDecls tu.cursor)) ∧
    (interpretAsCpp = true →
      (GenerateMock win32 parse cls inputFilename config interpretAsCpp includePaths
          st).streams.output
        = st.output
          ++ "/* This file has been auto-generated by CppUTestMock. DO NOT EDIT IT!!! */\n\n"
          ++ "#include \"" ++ GetFilenameFromPath win32 inputFilename ++ "\"\n"
          ++ "\n#include <CppUTestExt/MockSupport.h>\n\n"
          ++ mocksText cls config (visitedDecls tu.cursor)) := by
  have hz : numErrorDiagnostics tu.diagnostics = 0 :=
    (numErrorDiagnostics_eq_zero_iff tu.diagnostics).mpr hno
  rw [GenerateMock_output win32 parse cls inputFilename config interpretAsCpp includePaths st
    tu h, headingText_eq]
  constructor
  · intro hc
    simp [hz, hc, String.append_assoc]
  · intro hc
    simp [hz, hc, String.append_assoc]

theorem GenerateMock_extern_C_block_witness :
    exampleFrontEnd exampleCleanUnit "foo.h" (clangOpts false []) = some exampleCleanUnit ∧
    (∀ d ∈ exampleCleanUnit.diagnostics, d.severity ≠ .Fatal ∧ d.severity ≠ .Error) ∧
    (GenerateMock false (exampleFrontEnd exampleCleanUnit) exampleClasses "foo.h" 7 false []
        ⟨"", "", []⟩).streams.output
      = ""
        ++ "/* This file has been auto-generated by CppUTestMock. DO NOT EDIT IT!!! */\n\n"
        ++ "extern \"C\" \x7b\n"
        ++ "#include \"" ++ GetFilenameFromPath false "foo.h" ++ "\"\n"
        ++ "\x7d\n"
        ++ "\n#include <CppUTestExt/MockSupport.h>\n\n"
        ++ mocksText exampleClasses 7 (visitedDecls exampleCleanUnit.cursor) :=
  ⟨rfl, by decide,
    (GenerateMock_extern_C_block false (exampleFrontEnd exampleCleanUnit) exampleClasses
      "foo.h" 7 false [] ⟨"", "", []⟩ exampleCleanUnit rfl (by decide)).1 rfl⟩

/-- C13: when `GenerateMock` returns `true`, what it adds to the output is some text,
the include directive of the original header, some text, the include directive of
`<CppUTestExt/MockSupport.h>`, a blank line, and only then the mocks. -/
theorem GenerateMock_includes_before_mocks {Config : Type} (win32 : Bool)
    (parse : String → List String → Option CXTranslationUnit) (cls : DeclClasses Config)
    (inputFilename : String) (config : Config) (interpretAsCpp : Bool)
    (includePaths : List String) (st : Streams) (tu : CXTranslationUnit)
    (h : parse inputFilename (clangOpts interpretAsCpp includePaths) = some tu)
    (hok : (GenerateMock win32 parse cls inputFilename config interpretAsCpp includePaths
        st).value = some true) :
    (GenerateMock win32 parse cls inputFilename config interpretAsCpp includePaths
        st).streams.output
      = st.output
        ++ ("/* This file has been auto-generated by CppUTestMock. DO NOT EDIT IT!!! */\n\n"
          ++ (if interpretAsCpp then "" else "extern \"C\" \x7b\n"))
        ++ ("#include \"" ++ GetFilenameFromPath win32 inputFilename ++ "\"\n")
        ++ ((if interpretAsCpp then "" else "\x7d\n") ++ "\n")
        ++ "#include <CppUTestExt/MockSupport.h>\n"
        ++ "\n"
        ++ concatText ((mockedDecls cls config tu.cursor).map fun c =>
            declMock cls config c ++ "\n") := by
  have hz : numErrorDiagnostics tu.diagnostics = 0 := by
    rw [GenerateMock_value win32 parse cls inputFilename config interpretAsCpp includePaths st
      tu h] at hok
    simpa using hok
  rw [GenerateMock_output win32 parse cls inputFilename config interpretAsCpp includePaths st
    tu h, headingText_eq, mocksText_eq_filter]
  cases interpretAsCpp <;> simp [hz, mockedDecls, String.append_assoc] <;> rfl

theorem GenerateMock_includes_before_mocks_witness :
    exampleFrontEnd exampleWarningUnit "foo.h" (clangOpts true []) = some exampleWarningUnit ∧
    (GenerateMock true (exampleFrontEnd exampleWarningUnit) exampleClasses "foo.h" 7 true []
        ⟨"", "", []⟩).value = some true ∧
    (GenerateMock true (exampleFrontEnd exampleWarningUnit) exampleClasses "foo.h" 7 true []
        ⟨"", "", []⟩).streams.output
      = ""
        ++ ("/* This file has been auto-generated by CppUTestMock. DO NOT EDIT IT!!! */\n\n"
          ++ (if true then "" else "extern \"C\" \x7b\n"))
        ++ ("#include \"" ++ GetFilenameFromPath true "foo.h" ++ "\"\n")
        ++ ((if true then "" else "\x7d\n") ++ "\n")
        ++ "#include <CppUTestExt/MockSupport.h>\n"
        ++ "\n"
        ++ concatText ((mockedDecls exampleClasses 7 exampleWarningUnit.cursor).map fun c =>
            declMock exampleClasses 7 c ++ "\n") :=
  ⟨rfl, by decide,
    GenerateMock_includes_before_mocks true (exampleFrontEnd exampleWarningUnit) exampleClasses
      "foo.h" 7 true [] ⟨"", "", []⟩ exampleWarningUnit rfl (by decide)⟩

theorem visitedDecls_eq_children (cursor : CXCursor) :
    visitedDecls cursor = visitedDeclsList cursor.children := by
  cases cursor
  rw [visitedDecls, CXCursor.children]

theorem mem_visitedDeclsList_of_decl (cursors : List CXCursor) (c : CXCursor)
    (hc : c ∈ cursors) (hmain : clang_Location_isFromMainFile c ≠ 0)
    (hdecl : isDeclCursor c = true) : c ∈ visitedDeclsList cursors := by
  induction cursors with
  | nil => cases hc
  | cons x xs ih =>
    rw [visitedDeclsList, List.mem_append]
    rcases List.mem_cons.mp hc with hx | hx
    · subst hx
      left
      simp [hmain, hdecl]
    · exact Or.inr (ih hx)

theorem visitedDecls_subset_of_child (cursors : List CXCursor) (c x : CXCursor)
    (hc : c ∈ cursors) (hmain : clang_Location_isFromMainFile c ≠ 0)
    (hdecl : isDeclCursor c = false) (hx : x ∈ visitedDecls c) :
    x ∈ visitedDeclsList cursors := by
  induction cursors with
  | nil => cases hc
  | cons y ys ih =>
    rw [visitedDeclsList, List.mem_append]
    rcases List.mem_cons.mp hc with hy | hy
    · subst hy
      left
      simpa [hmain, hdecl] using hx
    · exact Or.inr (ih hy)

theorem RecursedInto.visitedDecls_subset {root parent : CXCursor}
    (h : RecursedInto root parent) :
    ∀ x ∈ visitedDecls parent, x ∈ visitedDecls root := by
  induction h with
  | root => exact fun x hx => hx
  | child p c _ hc hmain hdecl ih =>
    intro x hx
    apply ih
    rw [visitedDecls_eq_children]
    exact visitedDecls_subset_of_child p.children c x hc hmain hdecl hx

/-- C19: the visitor answers `Recurse` for every main-file cursor that is neither a
function nor a method declaration; hence a main-file function or method declaration
whose ancestors below the root are all such cursors is visited, and when it is
mockable and the translation unit has no `Fatal` or `Error` diagnostic its mock is
part of the output. -/
theorem GenerateMock_mocks_nested_decl {Config : Type} (win32 : Bool)
    (parse : String → List String → Option CXTranslationUnit) (cls : DeclClasses Config)
    (inputFilename : String) (config : Config) (interpretAsCpp : Bool)
    (includePaths : List String) (st : Streams) (tu : CXTranslationUnit)
    (parent c : CXCursor)
    (h : parse inputFilename (clangOpts interpretAsCpp includePaths) = some tu)
    (hno : ∀ d ∈ tu.diagnostics, d.severity ≠ .Fatal ∧ d.severity ≠ .Error)
    (hparent : RecursedInto tu.cursor parent) (hc : c ∈ parent.children)
    (hmain : clang_Location_isFromMainFile c ≠ 0)
    (hkind : clang_getCursorKind c = CXCursor_FunctionDecl ∨
      clang_getCursorKind c = CXCursor_CXXMethod)
    (hmock : declIsMockable cls config c = true) :
    (∀ (cursor up : CXCursor) (parseData : ParseData Config),
      clang_Location_isFromMainFile cursor ≠ 0 →
      clang_getCursorKind cursor ≠ CXCursor_FunctionDecl →
      clang_getCursorKind cursor ≠ CXCursor_CXXMethod →
      visitor cls cursor up parseData = (.Recurse, parseData)) ∧
    c ∈ visitedDecls tu.cursor ∧
    ∃ before after : List CXCursor,
      mockedDecls cls config tu.cursor = before ++ c :: after ∧
      (GenerateMock win32 parse cls inputFilename config interpretAsCpp includePaths
          st).streams.output
        = st.output ++ headingText win32 inputFilename interpretAsCpp
          ++ concatText (before.map fun x => declMock cls config x ++ "\n")
          ++ declMock cls config c ++ "\n"
          ++ concatText (after.map fun x => declMock cls config x ++ "\n") := by
  have hdecl : isDeclCursor c = true := by
    unfold isDeclCursor
    rcases hkind with hk | hk <;> simp [hk]
  have hvisited : c ∈ visitedDecls tu.cursor := by
    apply hparent.visitedDecls_subset
    rw [visitedDecls_eq_children]
    exact mem_visitedDeclsList_of_decl parent.children c hc hmain hdecl
  refine ⟨?_, hvisited, ?_⟩
  · intro cursor up parseData hm hf hmeth
    apply visitor_of_other cls cursor up parseData hm
    unfold isDeclCursor
    simp [hf, hmeth]
  · have hmem : c ∈ mockedDecls cls config tu.cursor :=
      List.mem_filter.mpr ⟨hvisited, hmock⟩
    obtain ⟨before, after, hsplit⟩ := List.append_of_mem hmem
    refine ⟨before, after, hsplit, ?_⟩
    have hz : numErrorDiagnostics tu.diagnostics = 0 :=
      (numErrorDiagnostics_eq_zero_iff tu.diagnostics).mpr hno
    rw [GenerateMock_output win32 parse cls inputFilename config interpretAsCpp includePaths st
      tu h]
    simp only [hz, if_true]
    rw [mocksText_eq_filter]
    unfold mockedDecls at hsplit
    rw [hsplit]
    simp [concatText_append, concatText, String.append_assoc]

theorem GenerateMock_mocks_nested_decl_witness :
    exampleFrontEnd exampleCleanUnit "foo.h" (clangOpts true []) = some exampleCleanUnit ∧
    RecursedInto exampleCleanUnit.cursor
      (.mk 4 1 "cls" [.mk 21 1 "m1" [], .mk 21 1 "bad" []]) ∧
    ((∀ (cursor up : CXCursor) (parseData : ParseData Nat),
      clang_Location_isFromMainFile cursor ≠ 0 →
      clang_getCursorKind cursor ≠ CXCursor_FunctionDecl →
      clang_getCursorKind cursor ≠ CXCursor_CXXMethod →
      visitor exampleClasses cursor up parseData = (.Recurse, parseData)) ∧
    CXCursor.mk 21 1 "m1" [] ∈ visitedDecls exampleCleanUnit.cursor ∧
    ∃ before after : List CXCursor,
      mockedDecls exampleClasses 7 exampleCleanUnit.cursor
        = before ++ .mk 21 1 "m1" [] :: after ∧
      (GenerateMock false (exampleFrontEnd exampleCleanUnit) exampleClasses "foo.h" 7 true []
          ⟨"", "", []⟩).streams.output
        = "" ++ headingText false "foo.h" true
          ++ concatText (before.map fun x => declMock exampleClasses 7 x ++ "\n")
          ++ declMock exampleClasses 7 (.mk 21 1 "m1" []) ++ "\n"
          ++ concatText (after.map fun x => declMock exampleClasses 7 x ++ "\n")) :=
  have hcls : RecursedInto exampleCleanUnit.cursor
      (.mk 4 1 "cls" [.mk 21 1 "m1" [], .mk 21 1 "bad" []]) :=
    .child exampleCleanUnit.cursor _ .root
      (.tail _ (.tail _ (.tail _ (.head _)))) (by decide) (by decide)
  ⟨rfl, hcls,
    GenerateMock_mocks_nested_decl false (exampleFrontEnd exampleCleanUnit) exampleClasses
      "foo.h" 7 true [] ⟨"", "", []⟩ exampleCleanUnit
      (.mk 4 1 "cls" [.mk 21 1 "m1" [], .mk 21 1 "bad" []]) (.mk 21 1 "m1" [])
      rfl (by decide) hcls (.head _) (by decide) (Or.inr rfl) rfl⟩

theorem GenerateMock_eq {Config : Type} (win32 : Bool)
    (parse : String → List String → Option CXTranslationUnit) (cls : DeclClasses Config)
    (inputFilename : String) (config : Config) (interpretAsCpp : Bool)
    (includePaths : List String) (st : Streams) (tu : CXTranslationUnit)
    (h : parse inputFilename (clangOpts interpretAsCpp includePaths) = some tu) :
    GenerateMock win32 parse cls inputFilename config interpretAsCpp includePaths st
      = .returned (numErrorDiagnostics tu.diagnostics == 0)
          { output :=
              if numErrorDiagnostics tu.diagnostics = 0 then
                st.output ++ headingText win32 inputFilename interpretAsCpp
                  ++ mocksText cls config (visitedDecls tu.cursor)
              else st.output
            cerr := st.cerr ++ concatText (tu.diagnostics.map diagnosticLine)
            colorCalls := (reportDiagnostics tu.diagnostics (0, st)).2.colorCalls } := by
  have hv := GenerateMock_value win32 parse cls inputFilename config interpretAsCpp
    includePaths st tu h
  have ho := GenerateMock_output win32 parse cls inputFilename config interpretAsCpp
    includePaths st tu h
  have he := GenerateMock_cerr win32 parse cls inputFilename config interpretAsCpp
    includePaths st tu h
  have hc := GenerateMock_colorCalls win32 parse cls inputFilename config interpretAsCpp
    includePaths st tu h
  cases hg : GenerateMock win32 parse cls inputFilename config interpretAsCpp includePaths st
    with
  | exited status st2 => rw [hg] at hv; cases hv
  | returned value st2 =>
    rw [hg] at hv ho he hc
    simp only [Outcome.value, Option.some.injEq] at hv
    simp only [Outcome.streams] at ho he hc
    cases st2
    simp only at ho he hc
    rw [hv, ho, he, hc]

theorem mocksText_congr {Config : Type} (cls cls2 : DeclClasses Config) (config : Config)
    (decls : List CXCursor)
    (hagree : ∀ c ∈ decls,
      cls.functionIsMockable c config = cls2.functionIsMockable c config ∧
      cls.functionGenerateMock c config = cls2.functionGenerateMock c config ∧
      cls.methodIsMockable c config = cls2.methodIsMockable c config ∧
      cls.methodGenerateMock c config = cls2.methodGenerateMock c config) :
    mocksText cls config decls = mocksText cls2 config decls := by
  unfold mocksText
  congr 1
  apply List.map_congr_left
  intro c hc
  obtain ⟨h1, h2, h3, h4⟩ := hagree c hc
  simp only [declIsMockable, declMock, h1, h2, h3, h4]

/-- C20: the objects of the declarations the walk visits are built with the
configuration given to `GenerateMock` and no other: two families of declaration
classes that answer alike for that configuration on the visited declarations give
the same outcome, whatever they answer for other configurations; and the visitor
hands the configuration on unchanged. -/
theorem GenerateMock_uses_callers_config {Config : Type} (win32 : Bool)
    (parse : String → List String → Option CXTranslationUnit) (cls cls2 : DeclClasses Config)
    (inputFilename : String) (config : Config) (interpretAsCpp : Bool)
    (includePaths : List String) (st : Streams) (tu : CXTranslationUnit)
    (h : parse inputFilename (clangOpts interpretAsCpp includePaths) = some tu)
    (hagree : ∀ c ∈ visitedDecls tu.cursor,
      cls.functionIsMockable c config = cls2.functionIsMockable c config ∧
      cls.functionGenerateMock c config = cls2.functionGenerateMock c config ∧
      cls.methodIsMockable c config = cls2.methodIsMockable c config ∧
      cls.methodGenerateMock c config = cls2.methodGenerateMock c config) :
    GenerateMock win32 parse cls inputFilename config interpretAsCpp includePaths st
      = GenerateMock win32 parse cls2 inputFilename config interpretAsCpp includePaths st ∧
    ∀ (cursor parent : CXCursor) (parseData : ParseData Config),
      (visitor cls cursor parent parseData).2.config = parseData.config := by
  constructor
  · rw [GenerateMock_eq win32 parse cls inputFilename config interpretAsCpp includePaths st tu h,
      GenerateMock_eq win32 parse cls2 inputFilename config interpretAsCpp includePaths st tu h,
      mocksText_congr cls cls2 config (visitedDecls tu.cursor) hagree]
  · intro cursor parent parseData
    by_cases hmain : clang_Location_isFromMainFile cursor = 0
    · rw [visitor_of_not_main cls cursor parent parseData hmain]
    · cases hk : isDeclCursor cursor
      · rw [visitor_of_other cls cursor parent parseData hmain hk]
      · rw [visitor_of_decl cls cursor parent parseData hmain hk]

theorem GenerateMock_uses_callers_config_witness :
    exampleFrontEnd exampleCleanUnit "foo.h" (clangOpts true []) = some exampleCleanUnit ∧
    (GenerateMock false (exampleFrontEnd exampleCleanUnit) exampleClasses "foo.h" 7 true []
        ⟨"", "", []⟩
      = GenerateMock false (exampleFrontEnd exampleCleanUnit) configBoundClasses "foo.h" 7 true
          [] ⟨"", "", []⟩ ∧
    ∀ (cursor parent : CXCursor) (parseData : ParseData Nat),
      (visitor exampleClasses cursor parent parseData).2.config = parseData.config) :=
  ⟨rfl, GenerateMock_uses_callers_config false (exampleFrontEnd exampleCleanUnit)
    exampleClasses configBoundClasses "foo.h" 7 true [] ⟨"", "", []⟩ exampleCleanUnit rfl
    (fun _ _ => ⟨rfl, rfl, rfl, rfl⟩)⟩

theorem rfind_eq_none_iff (c : Char) (l : List Char) : rfind c l = none ↔ c ∉ l := by
  induction l with
  | nil => simp [rfind]
  | cons x xs ih =>
    rw [rfind]
    cases hr : rfind c xs with
    | none =>
      have hnot : c ∉ xs := ih.mp hr
      by_cases hx : x = c
      · simp [hx]
      · simp [hx, hnot, Ne.symm hx]
    | some pos =>
      have hin : ¬ c ∉ xs := fun hn => by
        have := ih.mpr hn
        rw [hr] at this
        cases this
      simp only [reduceCtorEq, false_iff, not_not]
      exact List.mem_cons_of_mem _ (not_not.mp hin)

theorem rfind_eq_some (c : Char) (l : List Char) (pos : Nat) (h : rfind c l = some pos) :
    l = l.take pos ++ c :: l.drop (pos + 1) ∧ c ∉ l.drop (pos + 1) := by
  induction l generalizing pos with
  | nil => simp [rfind] at h
  | cons x xs ih =>
    rw [rfind] at h
    cases hr : rfind c xs with
    | none =>
      rw [hr] at h
      by_cases hx : x = c
      · simp only [hx, if_true, Option.some.injEq] at h
        subst h
        subst hx
        simpa using (rfind_eq_none_iff x xs).mp hr
      · simp [hx] at h
    | some p =>
      rw [hr] at h
      simp only [Option.some.injEq] at h
      subst h
      obtain ⟨h1, h2⟩ := ih p hr
      constructor
      · simp only [List.take_succ_cons, List.drop_succ_cons, List.cons_append]
        rw [← h1]
      · simpa using h2

theorem removeExtension_spec (name : String) :
    (name = removeExtension name ∧ '.' ∉ name.data) ∨
    ∃ extension : String,
      name = removeExtension name ++ "." ++ extension ∧ '.' ∉ extension.data := by
  unfold removeExtension
  cases hr : rfind '.' name.data with
  | none => exact Or.inl ⟨rfl, (rfind_eq_none_iff _ _).mp hr⟩
  | some pos =>
    right
    obtain ⟨h1, h2⟩ := rfind_eq_some _ _ _ hr
    refine ⟨String.mk (name.data.drop (pos + 1)), ?_, h2⟩
    apply String.ext
    simp only [String.data_append]
    simpa using h1

/-- C15: when `Parser::Parse` fails, `App::Execute` returns 2, adds to the error
stream a text with `ERROR:` and the name of the input file, requests no mock
generation and leaves the output stream and the files as they were; when parsing
succeeds it returns 0; without an input file it returns 1. -/
theorem AppExecute_return_codes (win32 : Bool) (env : AppCollaborators) (options : AppOptions)
    (state : AppState) :
    (options.input = none → (AppExecute win32 env options state).1 = 1) ∧
    ∀ inputFilename mockOption : String,
      options.input = some inputFilename → options.mockOutput = some mockOption →
      (mockOption = "@" ∨
        env.canOpen (mockOutputFilepath win32 inputFilename mockOption) = true) →
      ((env.parse options).1 = false →
        (AppExecute win32 env options state).1 = 2 ∧
        (∃ before between after : String,
          (AppExecute win32 env options state).2.error
            = state.error ++ before ++ "ERROR:" ++ between ++ inputFilename ++ after) ∧
        (AppExecute win32 env options state).2.generateMockCalls = state.generateMockCalls ∧
        (AppExecute win32 env options state).2.output = state.output ∧
        (AppExecute win32 env options state).2.files = state.files) ∧
      ((env.parse options).1 = true → (AppExecute win32 env options state).1 = 0) := by
  constructor
  · intro hin
    simp [AppExecute, hin]
  · intro inputFilename mockOption hin hm hopen
    have hgate : (!decide (mockOption = "@") &&
        !env.canOpen (mockOutputFilepath win32 inputFilename mockOption)) = false := by
      rcases hopen with hc | hc <;> simp [hc]
    constructor
    · intro hfail
      have hrun : AppExecute win32 env options state
          = (2, printError ("Output could not be generated due to errors parsing the input "
              ++ "file '" ++ inputFilename ++ "'")
              { state with error := state.error ++ (env.parse options).2 }) := by
        simp only [AppExecute, hin, hm, hgate, hfail, Bool.false_eq_true, if_false]
      rw [hrun]
      refine ⟨rfl, ⟨(env.parse options).2, " Output could not be generated due to errors "
        ++ "parsing the input file '", "'\n", ?_⟩, rfl, rfl, rfl⟩
      simp only [printError, String.append_assoc]
      rfl
    · intro hok
      simp only [AppExecute, hin, hm, hgate, hok, Bool.false_eq_true, if_false, if_true]
      split <;> rfl

theorem AppExecute_return_codes_witness :
    ((AppExecute false exampleCollaborators
        { typeOverrideTestOptions with input := some "bad.h" } ⟨"", "", 0, [], []⟩).1 = 2 ∧
      (∃ before between after : String,
        (AppExecute false exampleCollaborators
          { typeOverrideTestOptions with input := some "bad.h" } ⟨"", "", 0, [], []⟩).2.error
          = "" ++ before ++ "ERROR:" ++ between ++ "bad.h" ++ after) ∧
      (AppExecute false exampleCollaborators
        { typeOverrideTestOptions with input := some "bad.h" }
        ⟨"", "", 0, [], []⟩).2.generateMockCalls = [] ∧
      (AppExecute false exampleCollaborators
        { typeOverrideTestOptions with input := some "bad.h" } ⟨"", "", 0, [], []⟩).2.output
        = "" ∧
      (AppExecute false exampleCollaborators
        { typeOverrideTestOptions with input := some "bad.h" } ⟨"", "", 0, [], []⟩).2.files
        = []) ∧
    (AppExecute false exampleCollaborators typeOverrideTestOptions ⟨"", "", 0, [], []⟩).1 = 0 ∧
    (AppExecute false exampleCollaborators
      { typeOverrideTestOptions with input := none } ⟨"", "", 0, [], []⟩).1 = 1 :=
  ⟨((AppExecute_return_codes false exampleCollaborators
      { typeOverrideTestOptions with input := some "bad.h" } ⟨"", "", 0, [], []⟩).2
      "bad.h" "@" rfl rfl (Or.inl rfl)).1 rfl,
    ((AppExecute_return_codes false exampleCollaborators typeOverrideTestOptions
      ⟨"", "", 0, [], []⟩).2 "foo.h" "@" rfl rfl (Or.inl rfl)).2 rfl,
    (AppExecute_return_codes false exampleCollaborators
      { typeOverrideTestOptions with input := none } ⟨"", "", 0, [], []⟩).1 rfl⟩

/-- C17: when `App::Execute` generates a mock into a file, the file is the one
`mockOutputFilepath` names: for a mock option without a path the base name of the
input file without its extension followed by `_mock.cpp`, for a mock option that
names a directory the same after the directory, and for any other mock option the
path it gives, unchanged; `foo.h` gives `foo_mock.cpp` and `bar` gives
`bar_mock.cpp`. -/
theorem AppExecute_mock_output_file (win32 : Bool) (env : AppCollaborators)
    (options : AppOptions) (state : AppState) (inputFilename mockOption : String)
    (hin : options.input = some inputFilename) (hm : options.mockOutput = some mockOption)
    (hfile : mockOption ≠ "@")
    (hopen : env.canOpen (mockOutputFilepath win32 inputFilename mockOption) = true)
    (hparse : (env.parse options).1 = true) :
    (AppExecute win32 env options state).2.files
      = state.files ++ [(mockOutputFilepath win32 inputFilename mockOption,
          env.generateMock (generationOptions options))] ∧
    (∃ stem : String,
      ((GetFilenameFromPath win32 inputFilename = stem ∧ '.' ∉ stem.data) ∨
        ∃ extension : String,
          GetFilenameFromPath win32 inputFilename = stem ++ "." ++ extension ∧
          '.' ∉ extension.data) ∧
      (mockOption = "" →
        mockOutputFilepath win32 inputFilename mockOption = stem ++ "_mock.cpp") ∧
      (mockOption.data.getLast? = some (PATH_SEPARATOR win32) →
        mockOutputFilepath win32 inputFilename mockOption
          = mockOption ++ stem ++ "_mock.cpp")) ∧
    (mockOption ≠ "" → mockOption.data.getLast? ≠ some (PATH_SEPARATOR win32) →
      mockOutputFilepath win32 inputFilename mockOption = mockOption) ∧
    mockOutputFilepath win32 "foo.h" "" = "foo_mock.cpp" ∧
    mockOutputFilepath win32 "bar" "" = "bar_mock.cpp" := by
  refine ⟨?_, ⟨removeExtension (GetFilenameFromPath win32 inputFilename), ?_, ?_, ?_⟩, ?_, ?_, ?_⟩
  · simp [AppExecute, hin, hm, hfile, hopen, hparse, printSuccess]
  · rcases removeExtension_spec (GetFilenameFromPath win32 inputFilename) with h | h
    · exact Or.inl ⟨h.1, by rw [← h.1]; exact h.2⟩
    · exact Or.inr h
  · intro hempty
    simp [mockOutputFilepath, hempty]
  · intro hdir
    have hne : mockOption ≠ "" := by
      intro he
      rw [he] at hdir
      simp at hdir
    simp [mockOutputFilepath, hne, hdir, String.append_assoc]
  · intro hne hnodir
    simp [mockOutputFilepath, hne, hnodir]
  · cases win32 <;> rfl
  · cases win32 <;> rfl

theorem AppExecute_mock_output_file_witness :
    (AppExecute false exampleCollaborators
        { typeOverrideTestOptions with mockOutput := some "/tmp/" } ⟨"", "", 0, [], []⟩).2.files
      = [] ++ [(mockOutputFilepath false "foo.h" "/tmp/",
          exampleCollaborators.generateMock (generationOptions
            { typeOverrideTestOptions with mockOutput := some "/tmp/" }))] ∧
    mockOutputFilepath false "foo.h" "/tmp/" = "/tmp/foo_mock.cpp" ∧
    mockOutputFilepath false "foo.h" "/tmp/mymock.cpp" = "/tmp/mymock.cpp" :=
  ⟨(AppExecute_mock_output_file false exampleCollaborators
      { typeOverrideTestOptions with mockOutput := some "/tmp/" } ⟨"", "", 0, [], []⟩
      "foo.h" "/tmp/" rfl rfl (by decide) rfl rfl).1, rfl, rfl⟩

theorem GetFilenameFromPath_of_not_mem (win32 : Bool) (filepath : String)
    (h : PATH_SEPARATOR win32 ∉ filepath.data) :
    GetFilenameFromPath win32 filepath = filepath := by
  unfold GetFilenameFromPath
  rw [(rfind_eq_none_iff _ _).mpr h]

theorem GetFilenameFromPath_of_mem (win32 : Bool) (filepath : String)
    (h : PATH_SEPARATOR win32 ∈ filepath.data) :
    ∃ dir : List Char,
      filepath.data
        = dir ++ PATH_SEPARATOR win32 :: (GetFilenameFromPath win32 filepath).data ∧
      PATH_SEPARATOR win32 ∉ (GetFilenameFromPath win32 filepath).data := by
  unfold GetFilenameFromPath
  cases hr : rfind (PATH_SEPARATOR win32) filepath.data with
  | none => exact absurd h ((rfind_eq_none_iff _ _).mp hr)
  | some pos =>
    obtain ⟨h1, h2⟩ := rfind_eq_some _ _ _ hr
    exact ⟨filepath.data.take pos, h1, h2⟩

theorem GetFilenameFromPath_no_separator (win32 : Bool) (filepath : String) :
    PATH_SEPARATOR win32 ∉ (GetFilenameFromPath win32 filepath).data := by
  by_cases h : PATH_SEPARATOR win32 ∈ filepath.data
  · exact (GetFilenameFromPath_of_mem win32 filepath h).choose_spec.2
  · rw [GetFilenameFromPath_of_not_mem win32 filepath h]
    exact h

/-- C23: every path is a text `dir` followed by `GetFilenameFromPath` of the path,
where `dir` is empty when the path holds no separator and otherwise ends with the
last separator of the path (none follows it); a path that ends with a separator
gives the empty text and a path without a separator is returned unchanged. -/
theorem GetFilenameFromPath_splits_at_last_separator (win32 : Bool) (filepath : String) :
    (∃ dir : String,
      filepath = dir ++ GetFilenameFromPath win32 filepath ∧
      (PATH_SEPARATOR win32 ∉ filepath.data → dir = "") ∧
      (PATH_SEPARATOR win32 ∈ filepath.data →
        dir.data.getLast? = some (PATH_SEPARATOR win32) ∧
        PATH_SEPARATOR win32 ∉ (GetFilenameFromPath win32 filepath).data)) ∧
    (filepath.data.getLast? = some (PATH_SEPARATOR win32) →
      GetFilenameFromPath win32 filepath = "") ∧
    (PATH_SEPARATOR win32 ∉ filepath.data → GetFilenameFromPath win32 filepath = filepath) := by
  refine ⟨?_, ?_, GetFilenameFromPath_of_not_mem win32 filepath⟩
  · by_cases h : PATH_SEPARATOR win32 ∈ filepath.data
    · obtain ⟨dir, h1, h2⟩ := GetFilenameFromPath_of_mem win32 filepath h
      refine ⟨String.mk (dir ++ [PATH_SEPARATOR win32]), ?_, fun hn => absurd h hn, fun _ => ?_⟩
      · apply String.ext
        rw [String.data_append, h1]
        simp
      · exact ⟨by simp, h2⟩
    · refine ⟨"", ?_, fun _ => rfl, fun hm => absurd hm h⟩
      rw [GetFilenameFromPath_of_not_mem win32 filepath h]
      simp
  · intro hlast
    have hmem : PATH_SEPARATOR win32 ∈ filepath.data := List.mem_of_getLast?_eq_some hlast
    obtain ⟨dir, h1, h2⟩ := GetFilenameFromPath_of_mem win32 filepath hmem
    cases hname : (GetFilenameFromPath win32 filepath).data with
    | nil =>
      apply String.ext
      rw [hname]
    | cons c cs =>
      exfalso
      apply h2
      rw [h1, hname] at hlast
      rw [hname]
      have hl : (dir ++ PATH_SEPARATOR win32 :: c :: cs).getLast? = (c :: cs).getLast? := by
        rw [show dir ++ PATH_SEPARATOR win32 :: c :: cs
            = (dir ++ [PATH_SEPARATOR win32]) ++ (c :: cs) by simp]
        rw [List.getLast?_append]
        cases hg : (c :: cs).getLast? with
        | none => simp at hg
        | some x => rfl
      rw [hl] at hlast
      exact List.mem_of_getLast?_eq_some hlast

theorem GetFilenameFromPath_splits_at_last_separator_witness :
    GetFilenameFromPath false "a/b/foo.h" = "foo.h" ∧
    GetFilenameFromPath false "a/b/" = "" ∧
    GetFilenameFromPath true "a/b/foo.h" = "a/b/foo.h" :=
  ⟨by decide,
    (GetFilenameFromPath_splits_at_last_separator false "a/b/").2.1 (by decide),
    (GetFilenameFromPath_splits_at_last_separator true "a/b/foo.h").2.2 (by decide)⟩

/-- C24: the text `GetFilenameFromPath` returns holds no path separator, and applying
`GetFilenameFromPath` to it gives it back. -/
theorem GetFilenameFromPath_idempotent (win32 : Bool) (filepath : String) :
    PATH_SEPARATOR win32 ∉ (GetFilenameFromPath win32 filepath).data ∧
    GetFilenameFromPath win32 (GetFilenameFromPath win32 filepath)
      = GetFilenameFromPath win32 filepath :=
  ⟨GetFilenameFromPath_no_separator win32 filepath,
    GetFilenameFromPath_of_not_mem win32 _ (GetFilenameFromPath_no_separator win32 filepath)⟩

/-- C25: for a translation unit without `Fatal` or `Error` diagnostics, the output
holds, between the banner (with the `extern "C"` line when the header is read as C)
and the rest of the heading, the line made of `#include "`, `GetFilenameFromPath` of
the input path and `"`; that name holds no path separator, and the input path is
some text followed by it. -/
theorem GenerateMock_include_names_file_only {Config : Type} (win32 : Bool)
    (parse : String → List String → Option CXTranslationUnit) (cls : DeclClasses Config)
    (inputFilename : String) (config : Config) (interpretAsCpp : Bool)
    (includePaths : List String) (st : Streams) (tu : CXTranslationUnit)
    (h : parse inputFilename (clangOpts interpretAsCpp includePaths) = some tu)
    (hno : ∀ d ∈ tu.diagnostics, d.severity ≠ .Fatal ∧ d.severity ≠ .Error) :
    (GenerateMock win32 parse cls inputFilename config interpretAsCpp includePaths
        st).streams.output
      = st.output
        ++ ("/* This file has been auto-generated by CppUTestMock. DO NOT EDIT IT!!! */\n\n"
          ++ (if interpretAsCpp then "" else "extern \"C\" \x7b\n"))
        ++ ("#include \"" ++ GetFilenameFromPath win32 inputFilename ++ "\"" ++ "\n")
        ++ ((if interpretAsCpp then "" else "\x7d\n")
          ++ "\n#include <CppUTestExt/MockSupport.h>\n\n"
          ++ mocksText cls config (visitedDecls tu.cursor)) ∧
    PATH_SEPARATOR win32 ∉ (GetFilenameFromPath win32 inputFilename).data ∧
    ∃ dir : String, inputFilename = dir ++ GetFilenameFromPath win32 inputFilename := by
  have hz : numErrorDiagnostics tu.diagnostics = 0 :=
    (numErrorDiagnostics_eq_zero_iff tu.diagnostics).mpr hno
  refine ⟨?_, GetFilenameFromPath_no_separator win32 inputFilename, ?_⟩
  · rw [GenerateMock_output win32 parse cls inputFilename config interpretAsCpp includePaths st
      tu h, headingText_eq]
    cases interpretAsCpp <;> simp [hz, String.append_assoc] <;> rfl
  · by_cases hm : PATH_SEPARATOR win32 ∈ inputFilename.data
    · obtain ⟨dir, h1, _⟩ := GetFilenameFromPath_of_mem win32 inputFilename hm
      refine ⟨String.mk (dir ++ [PATH_SEPARATOR win32]), ?_⟩
      apply String.ext
      rw [String.data_append, h1]
      simp
    · refine ⟨"", ?_⟩
      rw [GetFilenameFromPath_of_not_mem win32 inputFilename hm]
      simp

theorem GenerateMock_include_names_file_only_witness :
    (fun (_ : String) (_ : List String) => some exampleCleanUnit) "src/inc/foo.h"
        (clangOpts true []) = some exampleCleanUnit ∧
    (GenerateMock false (fun _ _ => some exampleCleanUnit) exampleClasses "src/inc/foo.h" 7
        true [] ⟨"", "", []⟩).streams.output
      = ""
        ++ ("/* This file has been auto-generated by CppUTestMock. DO NOT EDIT IT!!! */\n\n"
          ++ (if true then "" else "extern \"C\" \x7b\n"))
        ++ ("#include \"" ++ GetFilenameFromPath false "src/inc/foo.h" ++ "\"" ++ "\n")
        ++ ((if true then "" else "\x7d\n")
          ++ "\n#include <CppUTestExt/MockSupport.h>\n\n"
          ++ mocksText exampleClasses 7 (visitedDecls exampleCleanUnit.cursor)) ∧
    GetFilenameFromPath false "src/inc/foo.h" = "foo.h" :=
  ⟨rfl,
    (GenerateMock_include_names_file_only false (fun _ _ => some exampleCleanUnit)
      exampleClasses "src/inc/foo.h" 7 true [] ⟨"", "", []⟩ exampleCleanUnit rfl
      (by decide)).1,
    by decide⟩

/-! ## Properties of the diagnostics loop and of the walk -/

theorem reportDiagnostic_colorCalls (acc : Nat × Streams) (diag : CXDiagnostic) :
    (reportDiagnostic acc diag).2.colorCalls
      = acc.2.colorCalls ++ colorCallsOf diag.severity := by
  unfold reportDiagnostic
  cases diag.severity <;> simp [colorCallsOf, writeCerr, SetColor]

theorem reportDiagnostics_colorCalls (diags : List CXDiagnostic) (acc : Nat × Streams) :
    (reportDiagnostics diags acc).2.colorCalls
      = acc.2.colorCalls ++ diagnosticsColorCalls diags := by
  induction diags generalizing acc with
  | nil => simp [reportDiagnostics, diagnosticsColorCalls]
  | cons d ds ih =>
    show (reportDiagnostics ds (reportDiagnostic acc d)).2.colorCalls = _
    rw [ih, reportDiagnostic_colorCalls]
    simp [diagnosticsColorCalls]

theorem diagnosticsColorCalls_append (xs ys : List CXDiagnostic) :
    diagnosticsColorCalls (xs ++ ys) = diagnosticsColorCalls xs ++ diagnosticsColorCalls ys := by
  induction xs with
  | nil => rfl
  | cons x xs ih => simp [diagnosticsColorCalls, ih]

/-- C21 (as stated, at a warning followed by a note): the translation unit has exactly
one diagnostic of severity `Fatal`, `Error` or `Warning`, and `GenerateMock` makes
three calls to `SetColor`: `YELLOW`, `RESET`, `RESET`. -/
theorem GenerateMock_warning_and_note_three_color_calls :
    (exampleWarningUnit.diagnostics.filter fun d => isLabelledSeverity d.severity).length = 1 ∧
    (GenerateMock false (exampleFrontEnd exampleWarningUnit) exampleClasses "foo.h" 7 false []
        ⟨"", "", []⟩).streams.colorCalls = [.YELLOW, .RESET, .RESET] ∧
    (GenerateMock false (exampleFrontEnd exampleWarningUnit) exampleClasses "foo.h" 7 false []
        ⟨"", "", []⟩).streams.colorCalls.length ≠ 2 := by
  decide

/-- C21 (amended): for each diagnostic of severity `Fatal`, `Error` or `Warning` the
diagnostics loop calls `SetColor` exactly twice, right after the calls for the
diagnostics before it and right before those for the diagnostics after it: first
with `LIGHT_RED` (`Fatal`, `Error`) or `YELLOW` (`Warning`), then with `RESET`; so
when it is the only diagnostic of the translation unit, `GenerateMock` makes exactly
these two calls and the last one is `RESET`. -/
theorem GenerateMock_color_calls {Config : Type} (win32 : Bool)
    (parse : String → List String → Option CXTranslationUnit) (cls : DeclClasses Config)
    (inputFilename : String) (config : Config) (interpretAsCpp : Bool)
    (includePaths : List String) (st : Streams) (tu : CXTranslationUnit)
    (pre : List CXDiagnostic) (d : CXDiagnostic) (post : List CXDiagnostic)
    (h : parse inputFilename (clangOpts interpretAsCpp includePaths) = some tu)
    (hsplit : tu.diagnostics = pre ++ d :: post)
    (hsev : d.severity = .Fatal ∨ d.severity = .Error ∨ d.severity = .Warning) :
    (GenerateMock win32 parse cls inputFilename config interpretAsCpp includePaths
        st).streams.colorCalls
      = st.colorCalls ++ diagnosticsColorCalls pre
        ++ [if d.severity = .Warning then Color.YELLOW else Color.LIGHT_RED, Color.RESET]
        ++ diagnosticsColorCalls post ∧
    (pre = [] → post = [] →
      (GenerateMock win32 parse cls inputFilename config interpretAsCpp includePaths
          st).streams.colorCalls
        = st.colorCalls
          ++ [if d.severity = .Warning then Color.YELLOW else Color.LIGHT_RED, Color.RESET]) := by
  have hcalls : (GenerateMock win32 parse cls inputFilename config interpretAsCpp includePaths
        st).streams.colorCalls
      = st.colorCalls ++ diagnosticsColorCalls pre
        ++ [if d.severity = .Warning then Color.YELLOW else Color.LIGHT_RED, Color.RESET]
        ++ diagnosticsColorCalls post := by
    rw [GenerateMock_colorCalls win32 parse cls inputFilename config interpretAsCpp includePaths
      st tu h, reportDiagnostics_colorCalls, hsplit, diagnosticsColorCalls_append]
    rcases hsev with hs | hs | hs <;>
      simp [diagnosticsColorCalls, colorCallsOf, hs, List.append_assoc]
  refine ⟨hcalls, ?_⟩
  intro hpre hpost
  rw [hcalls, hpre, hpost]
  simp [diagnosticsColorCalls]

theorem GenerateMock_color_calls_witness :
    exampleFrontEnd exampleErrorUnit "foo.h" (clangOpts false []) = some exampleErrorUnit ∧
    exampleErrorUnit.diagnostics
      = [⟨.Warning, "foo.h:1:2: warning: test"⟩]
        ++ ⟨.Error, "foo.h:2:1: error: unknown type"⟩ :: [] ∧
    (GenerateMock false (exampleFrontEnd exampleErrorUnit) exampleClasses "foo.h" 7 false []
        ⟨"", "", []⟩).streams.colorCalls
      = [] ++ diagnosticsColorCalls [⟨.Warning, "foo.h:1:2: warning: test"⟩]
        ++ [if CXDiagnosticSeverity.Error = .Warning then Color.YELLOW else Color.LIGHT_RED,
            Color.RESET]
        ++ diagnosticsColorCalls [] :=
  ⟨rfl, rfl,
    (GenerateMock_color_calls false (exampleFrontEnd exampleErrorUnit) exampleClasses "foo.h" 7
      false [] ⟨"", "", []⟩ exampleErrorUnit [⟨.Warning, "foo.h:1:2: warning: test"⟩]
      ⟨.Error, "foo.h:2:1: error: unknown type"⟩ [] rfl rfl (Or.inr (Or.inl rfl))).1⟩

theorem tracedVisitor_apply {σ : Type}
    (visitor : CXCursor → CXCursor → σ → CXChildVisitResult × σ) (cursor parent : CXCursor)
    (data : σ) (log : List CXCursor) :
    tracedVisitor visitor cursor parent (data, log)
      = ((visitor cursor parent data).1, ((visitor cursor parent data).2, log ++ [cursor])) :=
  rfl

mutual
theorem clang_visitChildren_traced {Config : Type} (cls : DeclClasses Config) :
    ∀ (cursor : CXCursor) (parseData : ParseData Config) (log : List CXCursor),
      clang_visitChildren (tracedVisitor (visitor cls)) cursor (parseData, log)
        = (false, ((clang_visitChildren (visitor cls) cursor parseData).2,
            log ++ visitorCalls cursor))
  | .mk kind isFromMainFile usr children, parseData, log => by
    rw [clang_visitChildren, clang_visitChildren, visitorCalls]
    exact visitChildrenList_traced cls (.mk kind isFromMainFile usr children) children
      parseData log
theorem visitChildrenList_traced {Config : Type} (cls : DeclClasses Config)
    (parent : CXCursor) :
    ∀ (cursors : List CXCursor) (parseData : ParseData Config) (log : List CXCursor),
      visitChildrenList (tracedVisitor (visitor cls)) parent cursors (parseData, log)
        = (false, ((visitChildrenList (visitor cls) parent cursors parseData).2,
            log ++ visitorCallsList cursors))
  | [], parseData, log => by
    simp [visitChildrenList, visitorCallsList]
  | cursor :: rest, parseData, log => by
    rw [visitChildrenList, visitChildrenList, visitorCallsList]
    rw [tracedVisitor_apply]
    by_cases h : clang_Location_isFromMainFile cursor = 0
    · rw [visitor_of_not_main cls cursor parent parseData h]
      simp only [h, ne_eq, not_true_eq_false, false_and, if_false, List.nil_append]
      rw [visitChildrenList_traced cls parent rest parseData]
      simp
    · cases hk : isDeclCursor cursor
      · rw [visitor_of_other cls cursor parent parseData h hk]
        simp only [ne_eq, h, not_false_eq_true, and_self, if_true]
        rw [clang_visitChildren_traced cls cursor parseData, clang_visitChildren_visitor]
        simp only
        rw [visitChildrenList_traced cls parent rest]
        simp
      · rw [visitor_of_decl cls cursor parent parseData h hk]
        simp only [ne_eq, h, not_false_eq_true, Bool.true_eq_false, and_false, if_false,
          List.nil_append]
        rw [visitChildrenList_traced cls parent rest]
        simp
end

mutual
theorem visitorCalls_children : ∀ (root cursor x : CXCursor),
    RecursedInto root cursor → x ∈ visitorCalls cursor →
    ∃ parent, RecursedInto root parent ∧ x ∈ parent.children
  | root, .mk kind isFromMainFile usr children, x, hrec, hx => by
    rw [visitorCalls] at hx
    exact visitorCallsList_children root (.mk kind isFromMainFile usr children) children x hrec
      (fun c hc => hc) hx
theorem visitorCallsList_children : ∀ (root parent : CXCursor) (cursors : List CXCursor)
    (x : CXCursor), RecursedInto root parent → (∀ c ∈ cursors, c ∈ parent.children) →
    x ∈ visitorCallsList cursors →
    ∃ parent2, RecursedInto root parent2 ∧ x ∈ parent2.children
  | _, _, [], x, _, _, hx => by simp [visitorCallsList] at hx
  | root, parent, cursor :: rest, x, hrec, hsub, hx => by
    rw [visitorCallsList, List.mem_cons, List.mem_append] at hx
    have hcur : cursor ∈ parent.children := hsub cursor (List.mem_cons_self _ _)
    have hrest : ∀ c ∈ rest, c ∈ parent.children :=
      fun c hc => hsub c (List.mem_cons_of_mem _ hc)
    rcases hx with hx | hx | hx
    · exact ⟨parent, hrec, hx ▸ hcur⟩
    · by_cases hgo : clang_Location_isFromMainFile cursor ≠ 0 ∧ isDeclCursor cursor = false
      · rw [if_pos hgo] at hx
        exact visitorCalls_children root cursor x
          (.child parent cursor hrec hcur hgo.1 hgo.2) hx
      · simp [hgo] at hx
    · exact visitorCallsList_children root parent rest x hrec hrest hx
end

theorem isDeclCursor_of_kind (c : CXCursor)
    (h : clang_getCursorKind c = CXCursor_FunctionDecl ∨
      clang_getCursorKind c = CXCursor_CXXMethod) : isDeclCursor c = true := by
  unfold isDeclCursor
  rcases h with hk | hk <;> simp [hk]

theorem mocksText_singleton {Config : Type} (cls : DeclClasses Config) (config : Config)
    (c : CXCursor) :
    mocksText cls config [c] = "" ∨ mocksText cls config [c] = declMock cls config c ++ "\n" := by
  unfold mocksText
  by_cases hm : declIsMockable cls config c = true
  · right
    simp [hm, concatText]
  · left
    simp [hm, concatText]

/-- C22: when the visitor is called on a cursor that is not in the main file, or
that is a function or method declaration, the walk goes on with the next sibling
right after that one call, whatever the cursor has below it, and the call writes
nothing or the one mock of that cursor; over the whole walk, the visitor is only
ever called on children of the root and of main-file cursors that are neither
function nor method declarations. -/
theorem walk_never_descends_below_decl {Config : Type} (cls : DeclClasses Config)
    (root parent c : CXCursor) (rest : List CXCursor) (parseData : ParseData Config)
    (log : List CXCursor)
    (hstop : clang_Location_isFromMainFile c = 0 ∨
      clang_getCursorKind c = CXCursor_FunctionDecl ∨
      clang_getCursorKind c = CXCursor_CXXMethod) :
    visitChildrenList (tracedVisitor (visitor cls)) parent (c :: rest) (parseData, log)
      = visitChildrenList (tracedVisitor (visitor cls)) parent rest
          ((visitor cls c parent parseData).2, log ++ [c]) ∧
    ((visitor cls c parent parseData).2.output = parseData.output ∨
      (visitor cls c parent parseData).2.output
        = parseData.output ++ declMock cls parseData.config c ++ "\n") ∧
    (clang_visitChildren (tracedVisitor (visitor cls)) root (parseData, log)).2.2
      = log ++ visitorCalls root ∧
    (clang_visitChildren (tracedVisitor (visitor cls)) root (parseData, log)).2.1
      = (clang_visitChildren (visitor cls) root parseData).2 ∧
    (∀ x ∈ visitorCalls root, ∃ p, RecursedInto root p ∧ x ∈ p.children) ∧
    (∀ p, RecursedInto root p →
      p = root ∨
      (clang_Location_isFromMainFile p ≠ 0 ∧
        clang_getCursorKind p ≠ CXCursor_FunctionDecl ∧
        clang_getCursorKind p ≠ CXCursor_CXXMethod)) := by
  have hvisit : (visitor cls c parent parseData).1 = .Continue ∧
      ((visitor cls c parent parseData).2.output = parseData.output ∨
        (visitor cls c parent parseData).2.output
          = parseData.output ++ declMock cls parseData.config c ++ "\n") := by
    by_cases hmain : clang_Location_isFromMainFile c = 0
    · rw [visitor_of_not_main cls c parent parseData hmain]
      exact ⟨rfl, Or.inl rfl⟩
    · have hkind : isDeclCursor c = true :=
        isDeclCursor_of_kind c (hstop.resolve_left hmain)
      rw [visitor_of_decl cls c parent parseData hmain hkind]
      refine ⟨rfl, ?_⟩
      rcases mocksText_singleton cls parseData.config c with hm | hm
      · left
        simp [hm]
      · right
        simp [hm, String.append_assoc]
  refine ⟨?_, hvisit.2, ?_, ?_, ?_, ?_⟩
  · rw [visitChildrenList, tracedVisitor_apply]
    cases hv : visitor cls c parent parseData with
    | mk result data =>
      rw [hv] at hvisit
      simp only at hvisit
      rw [hvisit.1]
  · rw [clang_visitChildren_traced]
  · rw [clang_visitChildren_traced]
  · intro x hx
    exact visitorCalls_children root root x .root hx
  · intro p hp
    cases hp with
    | root => exact Or.inl rfl
    | child q _ _ _ hmain hdecl =>
      right
      unfold isDeclCursor at hdecl
      simp only [Bool.or_eq_false_iff, decide_eq_false_iff_not] at hdecl
      exact ⟨hmain, hdecl.1, hdecl.2⟩

theorem walk_never_descends_below_decl_witness :
    visitChildrenList (tracedVisitor (visitor exampleClasses)) exampleCursor
        (.mk 8 1 "f1" [.mk 10 1 "p" []] :: [.mk 8 1 "bad" []]) (⟨7, ""⟩, [])
      = visitChildrenList (tracedVisitor (visitor exampleClasses)) exampleCursor
          [.mk 8 1 "bad" []]
          ((visitor exampleClasses (.mk 8 1 "f1" [.mk 10 1 "p" []]) exampleCursor ⟨7, ""⟩).2,
            [] ++ [.mk 8 1 "f1" [.mk 10 1 "p" []]]) ∧
    (clang_visitChildren (tracedVisitor (visitor exampleClasses)) exampleCursor
        (⟨7, ""⟩, [])).2.2
      = [] ++ visitorCalls exampleCursor :=
  ⟨(walk_never_descends_below_decl exampleClasses exampleCursor exampleCursor
      (.mk 8 1 "f1" [.mk 10 1 "p" []]) [.mk 8 1 "bad" []] ⟨7, ""⟩ []
      (Or.inr (Or.inl rfl))).1,
    (walk_never_descends_below_decl exampleClasses exampleCursor exampleCursor
      (.mk 8 1 "f1" [.mk 10 1 "p" []]) [.mk 8 1 "bad" []] ⟨7, ""⟩ []
      (Or.inr (Or.inl rfl))).2.2.1⟩

/-! ## Properties of `CheckCompilation` -/

/-- C26 (as stated, with `INTERPRET_C` defined): compiling the test harness includes
followed by the overloads header, a line feed and an empty source yields no
diagnostics, and yet `CheckCompilation` returns `false`, because the code it
compiles has the header wrapped in `extern "C"`. -/
theorem CheckCompilation_interpret_C_compiles_wrapped_code :
    overloadsFrontEnd "test_mock.cpp" ["-xc++", "-I" ++ "inc"]
        [{ Filename := "test_mock.cpp"
           Contents := "#include <CppUTest/TestHarness.h>\n#include <CppUTestExt/MockSupport.h>\n"
             ++ overloadsHeader ++ "\n" ++ ""
           Length := ("#include <CppUTest/TestHarness.h>\n"
             ++ "#include <CppUTestExt/MockSupport.h>\n" ++ overloadsHeader ++ "\n" ++ "").utf8ByteSize
             % 2 ^ 64 }]
      = some exampleCleanUnit ∧
    exampleCleanUnit.diagnostics = [] ∧
    (CheckCompilation false true "inc" 64 overloadsFrontEnd overloadsHeader "" "").value
      = some false ∧
    compiledCode true overloadsHeader ""
      = "#include <CppUTest/TestHarness.h>\n#include <CppUTestExt/MockSupport.h>\n"
        ++ "extern \"C\" \x7b" ++ overloadsHeader ++ "\n" ++ "\x7d" ++ "" :=
  ⟨rfl, rfl, by decide, by decide⟩

/-- C26 (amended): with the compilation check enabled, `CheckCompilation` hands the
front-end the file `test_mock.cpp` with the code `compiledCode`: the test harness
includes followed by the tested header, a line feed and the tested source, the
header and the line feed standing between `extern "C" {` and `}` when `INTERPRET_C`
is defined (the length in bytes goes with it as an `unsigned long`, which is that
length when it fits).  When the front-end yields a translation unit the call
returns, and it returns `true` exactly when the unit has no diagnostics of any
severity, so a single warning gives `false`; when the front-end yields none the call
throws `Error creating translation unit`. -/
theorem CheckCompilation_true_iff_no_diagnostics (INTERPRET_C : Bool)
    (CPPUTEST_INCLUDE_DIR : String) (ulongBits : Nat)
    (parse : String → List String → List CXUnsavedFile → Option CXTranslationUnit)
    (testedHeader testedSource cerr : String) :
    (∀ tu : CXTranslationUnit,
      parse "test_mock.cpp" ["-xc++", "-I" ++ CPPUTEST_INCLUDE_DIR]
          [{ Filename := "test_mock.cpp"
             Contents := compiledCode INTERPRET_C testedHeader testedSource
             Length := (compiledCode INTERPRET_C testedHeader testedSource).utf8ByteSize
               % 2 ^ ulongBits }]
        = some tu →
      (∃ b, (CheckCompilation false INTERPRET_C CPPUTEST_INCLUDE_DIR ulongBits parse
          testedHeader testedSource cerr).value = some b) ∧
      ((CheckCompilation false INTERPRET_C CPPUTEST_INCLUDE_DIR ulongBits parse
          testedHeader testedSource cerr).value = some true ↔ tu.diagnostics = []) ∧
      (∀ text : String, tu.diagnostics = [⟨.Warning, text⟩] →
        (CheckCompilation false INTERPRET_C CPPUTEST_INCLUDE_DIR ulongBits parse
          testedHeader testedSource cerr).value = some false)) ∧
    (parse "test_mock.cpp" ["-xc++", "-I" ++ CPPUTEST_INCLUDE_DIR]
          [{ Filename := "test_mock.cpp"
             Contents := compiledCode INTERPRET_C testedHeader testedSource
             Length := (compiledCode INTERPRET_C testedHeader testedSource).utf8ByteSize
               % 2 ^ ulongBits }]
        = none →
      CheckCompilation false INTERPRET_C CPPUTEST_INCLUDE_DIR ulongBits parse
          testedHeader testedSource cerr
        = .threw "Error creating translation unit" cerr) ∧
    ((compiledCode INTERPRET_C testedHeader testedSource).utf8ByteSize < 2 ^ ulongBits →
      (compiledCode INTERPRET_C testedHeader testedSource).utf8ByteSize % 2 ^ ulongBits
        = (compiledCode INTERPRET_C testedHeader testedSource).utf8ByteSize) ∧
    compiledCode false testedHeader testedSource
      = "#include <CppUTest/TestHarness.h>\n#include <CppUTestExt/MockSupport.h>\n"
        ++ testedHeader ++ "\n" ++ testedSource ∧
    compiledCode true testedHeader testedSource
      = "#include <CppUTest/TestHarness.h>\n#include <CppUTestExt/MockSupport.h>\n"
        ++ "extern \"C\" \x7b" ++ testedHeader ++ "\n" ++ "\x7d" ++ testedSource := by
  refine ⟨?_, ?_, Nat.mod_eq_of_lt, ?_, ?_⟩
  · intro tu htu
    have hvalue : (CheckCompilation false INTERPRET_C CPPUTEST_INCLUDE_DIR ulongBits parse
        testedHeader testedSource cerr).value = some (tu.diagnostics.length == 0) := by
      simp only [CheckCompilation, Bool.false_eq_true, if_false, htu,
        CheckOutcome.value, clang_getNumDiagnostics]
    rw [hvalue]
    refine ⟨⟨_, rfl⟩, ?_, ?_⟩
    · cases tu.diagnostics <;> simp
    · intro text hd
      rw [hd]
      rfl
  · intro hnone
    simp only [CheckCompilation, Bool.false_eq_true, if_false, hnone]
  · simp [compiledCode, String.append_assoc]
  · simp [compiledCode, String.append_assoc]

theorem CheckCompilation_true_iff_no_diagnostics_witness :
    (fun (_ : String) (_ : List String) (_ : List CXUnsavedFile) => some singleWarningUnit)
        "test_mock.cpp" ["-xc++", "-I" ++ "inc"]
        [{ Filename := "test_mock.cpp"
           Contents := compiledCode false overloadsHeader "int x;"
           Length := (compiledCode false overloadsHeader "int x;").utf8ByteSize % 2 ^ 32 }]
      = some singleWarningUnit ∧
    (CheckCompilation false false "inc" 32 (fun _ _ _ => some singleWarningUnit)
        overloadsHeader "int x;" "").value = some false ∧
    CheckCompilation false false "inc" 32 (fun _ _ _ => none) overloadsHeader "int x;" ""
      = .threw "Error creating translation unit" "" ∧
    (compiledCode false overloadsHeader "int x;").utf8ByteSize % 2 ^ 32
      = (compiledCode false overloadsHeader "int x;").utf8ByteSize :=
  ⟨rfl,
    ((CheckCompilation_true_iff_no_diagnostics false "inc" 32
      (fun _ _ _ => some singleWarningUnit) overloadsHeader "int x;" "").1
      singleWarningUnit rfl).2.2 "test_mock.cpp:3:2: warning: test" rfl,
    (CheckCompilation_true_iff_no_diagnostics false "inc" 32 (fun _ _ _ => none)
      overloadsHeader "int x;" "").2.1 rfl,
    (CheckCompilation_true_iff_no_diagnostics false "inc" 32 (fun _ _ _ => none)
      overloadsHeader "int x;" "").2.2.1 (by decide)⟩

/-! ## Properties of `Parser` -/

theorem foldl_append_mocks (mocks : List String) (text : String) :
    mocks.foldl (fun text mock => text ++ mock ++ endl) text
      = text ++ concatText (mocks.map fun mock => mock ++ endl) := by
  induction mocks generalizing text with
  | nil => simp [concatText]
  | cons m ms ih =>
    rw [List.foldl_cons, ih, List.map_cons, concatText]
    simp [String.append_assoc]

/-- C14: for every generation-options string and every `Parser` object, also one on
which `Parse` was never called, the text `Parser::GenerateMock` writes holds
`Generation options: ` immediately followed by the generation options. -/
theorem Parser_GenerateMock_writes_generation_options (win32 : Bool) (parser : Parser)
    (genOpts output : String) :
    (∃ before after : String,
      parser.GenerateMock win32 genOpts output
        = output ++ before ++ "Generation options: " ++ genOpts ++ after) ∧
    (∃ before after : String,
      Parser.unparsed.GenerateMock win32 genOpts output
        = output ++ before ++ "Generation options: " ++ genOpts ++ after) ∧
    ∃ before after : String,
      Parser.unparsed.GenerateMock win32 "####REGEN_OPTS######" ""
        = before ++ "Generation options: ####REGEN_OPTS######" ++ after := by
  have hall : ∀ (p : Parser) (g out : String), ∃ before after : String,
      p.GenerateMock win32 g out = out ++ before ++ "Generation options: " ++ g ++ after := by
    intro p g out
    refine ⟨"/*\n * This file has been auto-generated by CppUMockGen.\n *\n * ",
      "\n */\n\n"
        ++ (if p.m_interpretAsCpp then "" else "extern \"C\" \x7b\n")
        ++ "#include \"" ++ GetFilenameFromPath win32 p.m_inputFilepath ++ "\"\n"
        ++ (if p.m_interpretAsCpp then "" else "\x7d\n")
        ++ "\n#include <CppUTestExt/MockSupport.h>\n\n"
        ++ concatText (p.m_functions.map fun mock => mock ++ endl), ?_⟩
    unfold Parser.GenerateMock Parser.GenerateFileHeading
    simp only [foldl_append_mocks]
    cases p.m_interpretAsCpp <;> simp [endl, String.append_assoc]
  refine ⟨hall parser genOpts output, hall Parser.unparsed genOpts output, ?_⟩
  obtain ⟨before, after, h⟩ := hall Parser.unparsed "####REGEN_OPTS######" ""
  exact ⟨before, after, by rw [h]; simp [String.append_assoc]⟩

/-! ## Properties of the front-end options -/

/-- C18: with the include paths `IncludePath1` and `IncludePath2`, the second push to
`includePathOpts` moves the first string, whose characters lay inside the string
object, so the first pointer of `clangOpts` points to released storage: the
front-end does not read `-IIncludePath1` and `-IIncludePath2`.  With one include
path, or with `-I` paths too long for the string object, the options are read as
given. -/
theorem clangOpts_first_of_two_short_paths_is_released :
    (buildOptionVectors SSO_CAPACITY vectorGrowth false
        ["IncludePath1", "IncludePath2"]).clangOpts
      = [.released, .element "-IIncludePath2"] ∧
    clangOpts false ["IncludePath1", "IncludePath2"] = ["", "-IIncludePath2"] ∧
    clangOpts false ["IncludePath1", "IncludePath2"] ≠ ["-IIncludePath1", "-IIncludePath2"] ∧
    clangOpts true ["IncludePath1"] = ["-xc++", "-IIncludePath1"] ∧
    clangOpts false ["/a/very/long/include/path", "/another/long/include/path"]
      = ["-I/a/very/long/include/path", "-I/another/long/include/path"] := by
  decide

end CppUMockGen
